import Mathlib

/-!
Shallow embedding of the fiscalization API server core (Go) in Lean 4:
the canonical codec and SHA-256 hash chain (`internal/utils/signature.go`),
the validation engine (`service.ValidationService`), the receipt pipeline
(`service.ReceiptService.SubmitReceipt`), the fiscal-day controller
(`service.FiscalDayService`) and the pure content of the repository layer
(`repository.receiptRepository`, `repository.fiscalDayRepository`).

Modelling conventions:
* Go `float64` monetary amounts are modelled as exact rationals (`ℚ`);
  Go `int`/`int64` as `ℤ` (the statutory amount limits keep every value far
  from the 64-bit range, so wrap-around never occurs on the modelled paths).
* Go `time.Time` is modelled as seconds since the Unix epoch (`ℤ`); the
  `Format` layouts used by the source are implemented on that representation.
* Go `nil` pointers/slices are `Option`; a nil-pointer dereference is made
  explicit in each operation's result type.
* Byte strings are `List Nat` with entries below 256; SHA-256 is implemented
  concretely so that hash values can be computed inside proofs.
-/

namespace Fdms

/-! ## 32-bit words and SHA-256 (Go `crypto/sha256`, as used by the codec) -/

/-- The modulus for 32-bit words: 2^32. -/
def w32 : Nat := 4294967296

/-- Right-rotation of a 32-bit word by `n` bits. -/
def rotr32 (n x : Nat) : Nat := ((x >>> n) ||| (x <<< (32 - n))) % w32

/-- Bitwise complement of a 32-bit word. -/
def not32 (x : Nat) : Nat := x ^^^ (w32 - 1)

/-- The 64 SHA-256 round constants. -/
def shaK : List Nat :=
  [1116352408, 1899447441, 3049323471, 3921009573, 961987163,
   1508970993, 2453635748, 2870763221, 3624381080, 310598401,
   607225278, 1426881987, 1925078388, 2162078206, 2614888103,
   3248222580, 3835390401, 4022224774, 264347078, 604807628,
   770255983, 1249150122, 1555081692, 1996064986, 2554220882,
   2821834349, 2952996808, 3210313671, 3336571891, 3584528711,
   113926993, 338241895, 666307205, 773529912, 1294757372,
   1396182291, 1695183700, 1986661051, 2177026350, 2456956037,
   2730485921, 2820302411, 3259730800, 3345764771, 3516065817,
   3600352804, 4094571909, 275423344, 430227734, 506948616,
   659060556, 883997877, 958139571, 1322822218, 1537002063,
   1747873779, 1955562222, 2024104815, 2227730452, 2361852424,
   2428436474, 2756734187, 3204031479, 3329325298]

/-- A number as 8 bytes, big-endian (the SHA-256 length suffix). -/
def be64 (n : Nat) : List Nat :=
  (List.range 8).map (fun i => (n >>> (8 * (7 - i))) % 256)

/-- A 32-bit word as 4 bytes, big-endian. -/
def be32 (n : Nat) : List Nat :=
  [(n >>> 24) % 256, (n >>> 16) % 256, (n >>> 8) % 256, n % 256]

/-- SHA-256 padding: a `0x80` byte, zeros to 56 mod 64, then the bit length. -/
def shaPad (msg : List Nat) : List Nat :=
  let l := msg.length
  let padLen := (64 - ((l + 9) % 64)) % 64
  msg ++ [128] ++ List.replicate padLen 0 ++ be64 (8 * l)

/-- Groups of 4 bytes assembled into big-endian 32-bit words. -/
def toWords : List Nat → List Nat
  | a :: b :: c :: d :: rest => (((a * 256 + b) * 256 + c) * 256 + d) :: toWords rest
  | _ => []

/-- A word list cut into 16-word blocks (padded input is always a multiple
of 16 words, so the final catch-all case is never reached on codec input). -/
def chunks16 : List Nat → List (List Nat)
  | a1 :: a2 :: a3 :: a4 :: a5 :: a6 :: a7 :: a8 ::
      a9 :: a10 :: a11 :: a12 :: a13 :: a14 :: a15 :: a16 :: rest =>
      [a1, a2, a3, a4, a5, a6, a7, a8, a9, a10, a11, a12, a13, a14, a15, a16]
        :: chunks16 rest
  | _ => []

/-- The SHA-256 message schedule: a 16-word block extended to 64 words. -/
def shaSchedule (block : List Nat) : Array Nat :=
  (List.range 48).foldl
    (fun w _ =>
      let i := w.size
      let w15 := w.getD (i - 15) 0
      let w2 := w.getD (i - 2) 0
      let w16 := w.getD (i - 16) 0
      let w7 := w.getD (i - 7) 0
      let s0 := (rotr32 7 w15) ^^^ (rotr32 18 w15) ^^^ (w15 >>> 3)
      let s1 := (rotr32 17 w2) ^^^ (rotr32 19 w2) ^^^ (w2 >>> 10)
      w.push ((w16 + s0 + w7 + s1) % w32))
    block.toArray

/-- The eight SHA-256 working variables. -/
structure Sha8 where
  a : Nat
  b : Nat
  c : Nat
  d : Nat
  e : Nat
  f : Nat
  g : Nat
  h : Nat
deriving DecidableEq, Repr

/-- The SHA-256 initial hash value. -/
def shaH0 : Sha8 :=
  ⟨1779033703, 3144134277, 1013904242, 2773480762,
   1359893119, 2600822924, 528734635, 1541459225⟩

/-- One SHA-256 compression round. -/
def shaRound (w : Array Nat) (s : Sha8) (t : Nat) : Sha8 :=
  let bigS1 := (rotr32 6 s.e) ^^^ (rotr32 11 s.e) ^^^ (rotr32 25 s.e)
  let ch := (s.e &&& s.f) ^^^ ((not32 s.e) &&& s.g)
  let temp1 := (s.h + bigS1 + ch + shaK.getD t 0 + w.getD t 0) % w32
  let bigS0 := (rotr32 2 s.a) ^^^ (rotr32 13 s.a) ^^^ (rotr32 22 s.a)
  let maj := (s.a &&& s.b) ^^^ (s.a &&& s.c) ^^^ (s.b &&& s.c)
  let temp2 := (bigS0 + maj) % w32
  ⟨(temp1 + temp2) % w32, s.a, s.b, s.c, (s.d + temp1) % w32, s.e, s.f, s.g⟩

/-- SHA-256 compression of one 16-word block into the running hash. -/
def shaCompress (hs : Sha8) (block : List Nat) : Sha8 :=
  let w := shaSchedule block
  let s := (List.range 64).foldl (shaRound w) hs
  ⟨(hs.a + s.a) % w32, (hs.b + s.b) % w32, (hs.c + s.c) % w32,
   (hs.d + s.d) % w32, (hs.e + s.e) % w32, (hs.f + s.f) % w32,
   (hs.g + s.g) % w32, (hs.h + s.h) % w32⟩

/-- SHA-256 of a byte string, as its 32 digest bytes. -/
def sha256 (msg : List Nat) : List Nat :=
  let hs := (chunks16 (toWords (shaPad msg))).foldl shaCompress shaH0
  ([hs.a, hs.b, hs.c, hs.d, hs.e, hs.f, hs.g, hs.h].map be32).flatten

/-- The bytes of an ASCII string (every string the codec builds is ASCII,
so this agrees with Go's UTF-8 `[]byte` conversion). -/
def strBytes (s : String) : List Nat := s.toList.map Char.toNat

/-! ## Decimal formatting helpers (Go `strconv`, `fmt`) -/

/-- A natural number zero-padded to two digits (`fmt` `%02d`). -/
def pad2 (n : Nat) : String := if n < 10 then "0" ++ toString n else toString n

/-- A natural number zero-padded to four digits. -/
def pad4 (n : Nat) : String :=
  if n < 10 then "000" ++ toString n
  else if n < 100 then "00" ++ toString n
  else if n < 1000 then "0" ++ toString n
  else toString n

/-- Go's `int64(x)` conversion applied to an exact rational: truncation
toward zero. -/
def goInt64 (q : ℚ) : ℤ :=
  if 0 ≤ q.num then ((q.num.toNat / q.den : ℕ) : ℤ)
  else -(((-q.num).toNat / q.den : ℕ) : ℤ)

/-- Rounding to the nearest integer, ties to even: the rounding Go's
`fmt` applies to the decimal digits of `%.2f`. -/
def roundHalfEven (x : ℚ) : ℤ :=
  let f := ⌊x⌋
  let r := x - f
  if r < 1 / 2 then f
  else if 1 / 2 < r then f + 1
  else if f % 2 = 0 then f else f + 1

/-- Go's `fmt.Sprintf("%.2f", x)` on a nonnegative rational. -/
def fmt2core (q : ℚ) : String :=
  let c := (roundHalfEven (q * 100)).toNat
  toString (c / 100) ++ "." ++ pad2 (c % 100)

/-- Go's `fmt.Sprintf("%.2f", x)` (sign handled as by `fmt`). -/
def fmt2 (q : ℚ) : String :=
  if q < 0 then "-" ++ fmt2core (-q) else fmt2core q

/-! ## Calendar conversion (Go `time.Time.Format` on an epoch instant) -/

/-- Civil date (year, month, day) from a count of days since 1970-01-01. -/
def civilFromDays (z0 : ℤ) : ℤ × ℤ × ℤ :=
  let z := z0 + 719468
  let era := z.fdiv 146097
  let doe := z - era * 146097
  let yoe := (doe - doe.fdiv 1460 + doe.fdiv 36524 - doe.fdiv 146096).fdiv 365
  let y := yoe + era * 400
  let doy := doe - (365 * yoe + yoe.fdiv 4 - yoe.fdiv 100)
  let mp := (5 * doy + 2).fdiv 153
  let d := doy - (153 * mp + 2).fdiv 5 + 1
  let m := mp + (if mp < 10 then 3 else -9)
  (y + (if m ≤ 2 then 1 else 0), m, d)

/-- Days since 1970-01-01 from a civil date (out-of-range days overflow
into the following month, matching Go's date normalization). -/
def daysFromCivil (y0 m d : ℤ) : ℤ :=
  let y := y0 - (if m ≤ 2 then 1 else 0)
  let era := y.fdiv 400
  let yoe := y - era * 400
  let mp := m + (if 2 < m then -3 else 9)
  let doy := (153 * mp + 2).fdiv 5 + d - 1
  let doe := yoe * 365 + yoe.fdiv 4 - yoe.fdiv 100 + doy
  era * 146097 + doe - 719468

/-- Go's `t.Format("2006-01-02T15:04:05")` on an epoch instant. -/
def formatDateTime (t : ℤ) : String :=
  let days := t.fdiv 86400
  let sod := (t - days * 86400).toNat
  let c := civilFromDays days
  pad4 c.1.toNat ++ "-" ++ pad2 c.2.1.toNat ++ "-" ++ pad2 c.2.2.toNat ++ "T"
    ++ pad2 (sod / 3600) ++ ":" ++ pad2 (sod % 3600 / 60) ++ ":" ++ pad2 (sod % 60)

/-- Go's `t.Format("2006-01-02")` on an epoch instant. -/
def formatDate (t : ℤ) : String :=
  let days := t.fdiv 86400
  let c := civilFromDays days
  pad4 c.1.toNat ++ "-" ++ pad2 c.2.1.toNat ++ "-" ++ pad2 c.2.2.toNat

/-- Go's `t.AddDate(years, 0, 0)` on an epoch instant. -/
def addYears (t : ℤ) (k : ℤ) : ℤ :=
  let days := t.fdiv 86400
  let tod := t - days * 86400
  let c := civilFromDays days
  daysFromCivil (c.1 + k) c.2.1 c.2.2 * 86400 + tod

/-! ## Base64 (Go `encoding/base64` StdEncoding, used by the server
signature input) -/

/-- The standard base64 alphabet. -/
def b64Alphabet : List Char :=
  "ABCDEFGHIJKLMNOPQRSTUVWXYZabcdefghijklmnopqrstuvwxyz0123456789+/".toList

/-- The base64 character for a 6-bit value. -/
def b64Char (n : Nat) : String := String.mk [b64Alphabet.getD n 'A']

/-- Go's `base64.StdEncoding.EncodeToString`. -/
def encodeBase64 : List Nat → String
  | [] => ""
  | [a] =>
      b64Char (a >>> 2) ++ b64Char ((a % 4) <<< 4) ++ "=="
  | [a, b] =>
      b64Char (a >>> 2) ++ b64Char (((a % 4) <<< 4) ||| (b >>> 4))
        ++ b64Char ((b % 16) <<< 2) ++ "="
  | a :: b :: c :: rest =>
      b64Char (a >>> 2) ++ b64Char (((a % 4) <<< 4) ||| (b >>> 4))
        ++ b64Char (((b % 16) <<< 2) ||| (c >>> 6)) ++ b64Char (c % 64)
        ++ encodeBase64 rest

set_option maxRecDepth 10000 in
/-- Sanity vector: SHA-256 of `"abc"` (FIPS 180-2 appendix B.1). -/
theorem sha256_abc :
    sha256 (strBytes "abc") =
      [0xba, 0x78, 0x16, 0xbf, 0x8f, 0x01, 0xcf, 0xea, 0x41, 0x41, 0x40, 0xde,
       0x5d, 0xae, 0x22, 0x23, 0xb0, 0x03, 0x61, 0xa3, 0x96, 0x17, 0x7a, 0x9c,
       0xb4, 0x10, 0xff, 0x61, 0xf2, 0x00, 0x15, 0xad] := by decide

/-- Sanity vector: the datetime layout used by the codec. -/
theorem formatDateTime_sample : formatDateTime 1705314600 = "2024-01-15T10:30:00" := by
  decide

/-! ## Enumerations (`internal/models/enums.go`) -/

/-- `models.ReceiptType` (iota order FiscalInvoice, CreditNote, DebitNote). -/
inductive ReceiptType where
  | fiscalInvoice
  | creditNote
  | debitNote
deriving DecidableEq, Repr

/-- The `String()` method of `models.ReceiptType`. -/
def ReceiptType.goName : ReceiptType → String
  | .fiscalInvoice => "FiscalInvoice"
  | .creditNote => "CreditNote"
  | .debitNote => "DebitNote"

/-- `models.ReceiptLineType` (iota order Sale, Discount). -/
inductive ReceiptLineType where
  | sale
  | discount
deriving DecidableEq, Repr

/-- `models.MoneyType` (iota order Cash..Other); its numeric value is what
the live `FiscalDayCounter` struct stores. -/
inductive MoneyType where
  | cash
  | card
  | mobileWallet
  | coupon
  | credit
  | bankTransfer
  | other
deriving DecidableEq, Repr

/-- The iota value of a `models.MoneyType`. -/
def MoneyType.toInt : MoneyType → ℤ
  | .cash => 0
  | .card => 1
  | .mobileWallet => 2
  | .coupon => 3
  | .credit => 4
  | .bankTransfer => 5
  | .other => 6

/-- `models.ValidationColor` (string-valued enum Grey, Yellow, Red). -/
inductive ValidationColor where
  | grey
  | yellow
  | red
deriving DecidableEq, Repr

/-- `models.FiscalDayStatus` (iota order Closed, Opened, CloseInitiated,
CloseFailed). -/
inductive FiscalDayStatus where
  | closed
  | opened
  | closeInitiated
  | closeFailed
deriving DecidableEq, Repr

/-- The `String()` method of `models.FiscalDayStatus`. -/
def FiscalDayStatus.goName : FiscalDayStatus → String
  | .closed => "FiscalDayClosed"
  | .opened => "FiscalDayOpened"
  | .closeInitiated => "FiscalDayCloseInitiated"
  | .closeFailed => "FiscalDayCloseFailed"

/-- `models.FiscalDayReconciliationMode` (iota order Auto, Manual). -/
inductive FiscalDayReconciliationMode where
  | auto
  | manual
deriving DecidableEq, Repr

/-- The `String()` method of `models.FiscalDayReconciliationMode`. -/
def FiscalDayReconciliationMode.goName : FiscalDayReconciliationMode → String
  | .auto => "Auto"
  | .manual => "Manual"

/-- `models.DeviceOperatingMode` (iota order Online, Offline). -/
inductive DeviceOperatingMode where
  | online
  | offline
deriving DecidableEq, Repr

/-- The uppercased name of a `models.FiscalCounterType` iota value, per its
`String()` method — what the spec's canonical codec asks the fiscal-day
encoding to use for counter types. -/
def fiscalCounterTypeNameUpper (t : ℤ) : String :=
  if t = 0 then "SALEBYTAX"
  else if t = 1 then "SALETAXBYTAX"
  else if t = 2 then "CREDITNOTEBYTAX"
  else if t = 3 then "CREDITNOTETAXBYTAX"
  else if t = 4 then "DEBITNOTEBYTAX"
  else if t = 5 then "DEBITNOTETAXBYTAX"
  else "BALANCEBYMONEYTYPE"

/-! ## Data model (`internal/models`) -/

/-- `models.SignatureData`: a hash together with a signature. -/
structure SignatureData where
  hash : List Nat
  signature : List Nat
deriving DecidableEq, Repr

/-- `models.SignatureDataEx`: a signature with a certificate thumbprint. -/
structure SignatureDataEx where
  hash : List Nat
  signature : List Nat
  certificateThumbprint : List Nat
deriving DecidableEq, Repr

/-- `models.Buyer` (the fields the validation engine reads). -/
structure Buyer where
  buyerRegisterName : String
  buyerTIN : String
deriving DecidableEq, Repr

/-- `models.CreditDebitNote`: the reference a credit/debit note carries. -/
structure CreditDebitNote where
  receiptID : Option ℤ
  deviceID : Option ℤ
  receiptGlobalNo : Option ℤ
  fiscalDayNo : Option ℤ
deriving DecidableEq, Repr

/-- `models.ReceiptLine`. -/
structure ReceiptLine where
  receiptLineType : ReceiptLineType
  receiptLineNo : ℤ
  receiptLineHSCode : Option String
  receiptLineName : String
  receiptLinePrice : Option ℚ
  receiptLineQuantity : ℚ
  receiptLineTotal : ℚ
  taxCode : Option String
  taxPercent : Option ℚ
  taxID : ℤ
deriving DecidableEq, Repr

/-- `models.ReceiptTax`. -/
structure ReceiptTax where
  taxCode : Option String
  taxPercent : Option ℚ
  taxID : ℤ
  taxAmount : ℚ
  salesAmountWithTax : ℚ
deriving DecidableEq, Repr

/-- `models.Payment`. -/
structure Payment where
  moneyTypeCode : MoneyType
  paymentAmount : ℚ
deriving DecidableEq, Repr

/-- `models.Receipt` (wire DTO and persisted row alike, as in the source). -/
structure Receipt where
  id : ℤ
  receiptID : ℤ
  deviceID : ℤ
  fiscalDayID : ℤ
  receiptType : ReceiptType
  receiptCurrency : String
  receiptCounter : ℤ
  receiptGlobalNo : ℤ
  invoiceNo : String
  buyerData : Option Buyer
  receiptNotes : Option String
  receiptDate : ℤ
  creditDebitNote : Option CreditDebitNote
  receiptLinesTaxInclusive : Bool
  receiptLines : List ReceiptLine
  receiptTaxes : List ReceiptTax
  receiptPayments : List Payment
  receiptTotal : ℚ
  receiptDeviceSignature : SignatureData
  receiptServerSignature : Option SignatureDataEx
  receiptHash : List Nat
  validationColor : Option ValidationColor
  validationErrors : List String
  serverDate : Option ℤ
deriving DecidableEq, Repr

/-- `models.FiscalDay`. -/
structure FiscalDay where
  id : ℤ
  deviceID : ℤ
  fiscalDayNo : ℤ
  fiscalDayOpened : ℤ
  fiscalDayClosed : Option ℤ
  status : FiscalDayStatus
  reconciliationMode : Option FiscalDayReconciliationMode
  fiscalDayDeviceSignature : Option SignatureData
  fiscalDayServerSignature : Option SignatureDataEx
  lastReceiptGlobalNo : Option ℤ
deriving DecidableEq, Repr

/-- The live `models.FiscalDayCounter` struct: the counter type and money
type are stored as raw `int`s. -/
structure FiscalDayCounter where
  fiscalCounterType : ℤ
  fiscalCounterCurrency : String
  fiscalCounterTaxID : Option ℤ
  fiscalCounterTaxPercent : Option ℚ
  fiscalCounterMoneyType : Option ℤ
  fiscalCounterValue : ℚ
deriving DecidableEq, Repr

/-- `models.Device` (the fields the modelled operations read). -/
structure Device where
  deviceID : ℤ
  taxpayerID : ℤ
  operatingMode : DeviceOperatingMode
deriving DecidableEq, Repr

/-- `models.Taxpayer` (the fields the modelled operations read). -/
structure Taxpayer where
  id : ℤ
  vatNumber : Option String
  status : String
  taxPayerDayMaxHrs : ℤ
deriving DecidableEq, Repr

/-- `models.Tax`. -/
structure Tax where
  taxID : ℤ
  taxPercent : Option ℚ
  taxValidFrom : ℤ
  taxValidTill : Option ℤ
deriving DecidableEq, Repr

/-! ## Stable sorting with a Go `sort.Slice` comparator -/

/-- Insertion of one element into a list sorted by the strict comparator
`less`, keeping later elements after earlier equal ones. -/
def insertByLess (less : α → α → Bool) (x : α) : List α → List α
  | [] => [x]
  | y :: ys => if less x y then x :: y :: ys else y :: insertByLess less x ys

/-- A sort consistent with the `sort.Slice` comparator `less` (modelled as
the stable such sort). -/
def sortByLess (less : α → α → Bool) (l : List α) : List α :=
  l.foldl (fun acc x => insertByLess less x acc) []

/-! ## Canonical codec (`internal/utils/signature.go`) -/

/-- The `sort.Slice` comparator of `GenerateReceiptHash`: by `taxID`
ascending, then by `taxCode` (a nil code compares as the empty string). -/
def receiptTaxLess (a b : ReceiptTax) : Bool :=
  if a.taxID ≠ b.taxID then a.taxID < b.taxID
  else (a.taxCode.getD "") < (b.taxCode.getD "")

/-- The bytes one receipt tax contributes to the canonical receipt
encoding: taxCode (empty if nil), taxPercent as `%.2f` (empty if nil),
then taxAmount and salesAmountWithTax scaled by 100 through `int64`. -/
def receiptTaxChunk (t : ReceiptTax) : String :=
  (t.taxCode.getD "")
    ++ (match t.taxPercent with
        | some p => fmt2 p
        | none => "")
    ++ toString (goInt64 (t.taxAmount * 100))
    ++ toString (goInt64 (t.salesAmountWithTax * 100))

/-- The canonical receipt encoding built by `GenerateReceiptHash` before
the previous hash is appended: deviceID, uppercased type name, uppercased
currency, receiptGlobalNo, receiptDate, `int64(total*100)`, then the sorted
tax chunks. -/
def encodeReceipt (r : Receipt) : String :=
  toString r.deviceID
    ++ r.receiptType.goName.toUpper
    ++ r.receiptCurrency.toUpper
    ++ toString r.receiptGlobalNo
    ++ formatDateTime r.receiptDate
    ++ toString (goInt64 (r.receiptTotal * 100))
    ++ String.join ((sortByLess receiptTaxLess r.receiptTaxes).map receiptTaxChunk)

/-- `utils.GenerateReceiptHash`: SHA-256 over the canonical encoding with
the previous receipt hash appended raw (`[]` models the nil slice of a
first receipt). -/
def GenerateReceiptHash (r : Receipt) (previousHash : List Nat) : List Nat :=
  sha256 (strBytes (encodeReceipt r) ++ previousHash)

/-- The `sort.Slice` comparator shared by `GenerateFiscalDayHash` and
`GenerateFiscalDayServerHash`. -/
def counterLess (a b : FiscalDayCounter) : Bool :=
  if a.fiscalCounterType ≠ b.fiscalCounterType then
    a.fiscalCounterType < b.fiscalCounterType
  else if a.fiscalCounterCurrency ≠ b.fiscalCounterCurrency then
    a.fiscalCounterCurrency < b.fiscalCounterCurrency
  else
    match a.fiscalCounterTaxID, b.fiscalCounterTaxID with
    | some x, some y => x < y
    | _, _ =>
        match a.fiscalCounterMoneyType, b.fiscalCounterMoneyType with
        | some x, some y => x < y
        | _, _ => false

/-- The bytes one counter contributes to the canonical fiscal-day
encoding. The source writes `strings.ToUpper(strconv.Itoa(...))` for the
counter type and the money type — the decimal numeral of the enum value,
on which `ToUpper` is the identity. -/
def counterChunk (c : FiscalDayCounter) : String :=
  (toString c.fiscalCounterType).toUpper
    ++ c.fiscalCounterCurrency.toUpper
    ++ (match c.fiscalCounterTaxPercent with
        | some p => fmt2 p
        | none =>
            match c.fiscalCounterMoneyType with
            | some m => (toString m).toUpper
            | none => "")
    ++ toString (goInt64 (c.fiscalCounterValue * 100))

/-- The canonical fiscal-day encoding (device side) built by
`utils.GenerateFiscalDayHash`. -/
def encodeFiscalDay (deviceID fiscalDayNo : ℤ) (fiscalDayDate : String)
    (counters : List FiscalDayCounter) : String :=
  toString deviceID ++ toString fiscalDayNo ++ fiscalDayDate
    ++ String.join ((sortByLess counterLess counters).map counterChunk)

/-- `utils.GenerateFiscalDayHash`. -/
def GenerateFiscalDayHash (deviceID fiscalDayNo : ℤ) (fiscalDayDate : String)
    (counters : List FiscalDayCounter) : List Nat :=
  sha256 (strBytes (encodeFiscalDay deviceID fiscalDayNo fiscalDayDate counters))

/-- The canonical fiscal-day encoding (server side) built by
`utils.GenerateFiscalDayServerHash` before the device signature is
appended. -/
def encodeFiscalDayServer (deviceID fiscalDayNo : ℤ)
    (fiscalDayDate fiscalDayUpdated : String)
    (reconciliationMode : FiscalDayReconciliationMode)
    (counters : List FiscalDayCounter) : String :=
  toString deviceID ++ toString fiscalDayNo ++ fiscalDayDate ++ fiscalDayUpdated
    ++ reconciliationMode.goName.toUpper
    ++ String.join ((sortByLess counterLess counters).map counterChunk)

/-- `utils.GenerateFiscalDayServerHash`: the server-side encoding with the
device signature bytes appended raw, only under Auto reconciliation. -/
def GenerateFiscalDayServerHash (deviceID fiscalDayNo : ℤ)
    (fiscalDayDate fiscalDayUpdated : String)
    (reconciliationMode : FiscalDayReconciliationMode)
    (counters : List FiscalDayCounter)
    (deviceSignature : Option (List Nat)) : List Nat :=
  sha256 (strBytes (encodeFiscalDayServer deviceID fiscalDayNo fiscalDayDate
      fiscalDayUpdated reconciliationMode counters)
    ++ (if reconciliationMode = .auto then (deviceSignature.getD []) else []))

/-! ## Validation engine (`service.ValidationService`, `part_010`) -/

/-- One emitted rule violation: the formatted message that `addError`
appends to `result.Errors` together with the severity it passes. -/
structure RuleError where
  msg : String
  color : ValidationColor
deriving DecidableEq, Repr

/-- The message format of `addError`: `fmt.Sprintf("%s: %s", code, message)`. -/
def ruleMsg (code message : String) : String := code ++ ": " ++ message

/-- The color update performed by one `addError` call: Red always wins,
Yellow overrides Grey, and the first error sets the color. -/
def addColor : Option ValidationColor → ValidationColor → Option ValidationColor
  | none, c => some c
  | some cur, c =>
      if c = .red then some c
      else if c = .yellow ∧ cur = .grey then some c
      else some cur

/-- `service.ValidationResult`. -/
structure ValidationResult where
  isValid : Bool
  color : Option ValidationColor
  errors : List String
deriving DecidableEq, Repr

/-- The result of a sequence of `addError` calls, in emission order. -/
def resultOf (emitted : List RuleError) : ValidationResult :=
  { isValid := emitted.isEmpty
    color := emitted.foldl (fun c e => addColor c e.color) none
    errors := emitted.map (·.msg) }

/-- `floatEquals`: absolute difference within the tolerance. -/
def floatEquals (a b tolerance : ℚ) : Bool := decide (|a - b| ≤ tolerance)

/-- `isValidCurrency`: membership of the uppercased code in the
hard-coded whitelist. -/
def isValidCurrency (currency : String) : Bool :=
  ["USD", "ZWL", "EUR", "GBP", "ZAR"].any (fun v => currency.toUpper == v)

/-- `getTaxPercent`: a nil percent reads as 0. -/
def getTaxPercent (percent : Option ℚ) : ℚ := percent.getD 0

/-- `getTaxKey`: the `%s_%.2f` key over (taxCode, taxPercent). -/
def getTaxKey (code : Option String) (percent : Option ℚ) : String :=
  (code.getD "") ++ "_" ++ fmt2 (getTaxPercent percent)

/-- The `%d_%.2f` key over (taxID, taxPercent) used by `validateTaxes`. -/
def taxIdPctKey (taxID : ℤ) (percent : Option ℚ) : String :=
  toString taxID ++ "_" ++ fmt2 (getTaxPercent percent)

/-- Rule RCPT010: currency whitelist. -/
def rcpt010Errs (r : Receipt) : List RuleError :=
  if isValidCurrency r.receiptCurrency then []
  else [⟨ruleMsg "RCPT010" "Wrong currency code is used", .red⟩]

/-- Rule RCPT011: receipt counter continuity. With no previous receipt a
counter other than 1 is Grey; against a previous receipt a counter other
than predecessor + 1 is Red. -/
def rcpt011Errs (r : Receipt) (previous : Option Receipt) : List RuleError :=
  match previous with
  | none =>
      if r.receiptCounter ≠ 1 then
        [⟨ruleMsg "RCPT011" "Receipt counter is not sequential", .grey⟩]
      else []
  | some p =>
      if r.receiptCounter ≠ p.receiptCounter + 1 then
        [⟨ruleMsg "RCPT011" "Receipt counter is not sequential", .red⟩]
      else []

/-- Rule RCPT012: receipt global number continuity. With no previous
receipt the error is emitted only when the global number differs from 1
AND the counter differs from 1; against a previous receipt only when the
global number differs from predecessor + 1 AND from 1. -/
def rcpt012Errs (r : Receipt) (previous : Option Receipt) : List RuleError :=
  match previous with
  | none =>
      if r.receiptGlobalNo ≠ 1 ∧ r.receiptCounter ≠ 1 then
        [⟨ruleMsg "RCPT012" "Receipt global number is not sequential", .grey⟩]
      else []
  | some p =>
      if r.receiptGlobalNo ≠ p.receiptGlobalNo + 1 ∧ r.receiptGlobalNo ≠ 1 then
        [⟨ruleMsg "RCPT012" "Receipt global number is not sequential", .red⟩]
      else []

/-- Rule RCPT014: receipt date before the fiscal day opening. -/
def rcpt014Errs (r : Receipt) (fiscalDayOpened : ℤ) : List RuleError :=
  if r.receiptDate < fiscalDayOpened then
    [⟨ruleMsg "RCPT014" "Receipt date is earlier than fiscal day opening date", .yellow⟩]
  else []

/-- Rule RCPT015: credit/debit notes must carry a reference. -/
def rcpt015Errs (r : Receipt) : List RuleError :=
  if (r.receiptType = .creditNote ∨ r.receiptType = .debitNote)
      ∧ r.creditDebitNote = none then
    [⟨ruleMsg "RCPT015" "Credited/debited invoice data is not provided", .red⟩]
  else []

/-- Rule RCPT016: at least one line. -/
def rcpt016Errs (r : Receipt) : List RuleError :=
  if r.receiptLines.isEmpty then
    [⟨ruleMsg "RCPT016" "No receipt lines provided", .red⟩]
  else []

/-- Rule RCPT017: at least one tax row. -/
def rcpt017Errs (r : Receipt) : List RuleError :=
  if r.receiptTaxes.isEmpty then
    [⟨ruleMsg "RCPT017" "Taxes information is not provided", .red⟩]
  else []

/-- Rule RCPT018: at least one payment. -/
def rcpt018Errs (r : Receipt) : List RuleError :=
  if r.receiptPayments.isEmpty then
    [⟨ruleMsg "RCPT018" "Payment information is not provided", .red⟩]
  else []

/-- The `validateReceiptTotals` block: rules RCPT019/RCPT037, RCPT038,
RCPT039 and RCPT040 in emission order. -/
def totalsErrs (r : Receipt) : List RuleError :=
  let linesTotalSum := (r.receiptLines.map (·.receiptLineTotal)).sum
  let taxesSum := (r.receiptTaxes.map (·.taxAmount)).sum
  let salesWithTaxSum := (r.receiptTaxes.map (·.salesAmountWithTax)).sum
  let paymentsSum := (r.receiptPayments.map (·.paymentAmount)).sum
  (if r.receiptLinesTaxInclusive then
    if floatEquals r.receiptTotal linesTotalSum (1 / 100) then []
    else [⟨ruleMsg "RCPT019" "Invoice total amount is not equal to sum of all invoice lines", .red⟩]
  else
    if floatEquals r.receiptTotal (linesTotalSum + taxesSum) (1 / 100) then []
    else [⟨ruleMsg "RCPT037" "Invoice total amount is not equal to sum of all invoice lines and taxes", .red⟩])
  ++ (if floatEquals r.receiptTotal salesWithTaxSum (1 / 100) then []
    else [⟨ruleMsg "RCPT038" "Invoice total amount is not equal to sum of sales amount including tax", .red⟩])
  ++ (if floatEquals r.receiptTotal paymentsSum (1 / 100) then []
    else [⟨ruleMsg "RCPT039" "Invoice total amount is not equal to sum of all payment amounts", .red⟩])
  ++ (if r.receiptType = .fiscalInvoice ∨ r.receiptType = .debitNote then
    if r.receiptTotal < 0 then
      [⟨ruleMsg "RCPT040" "Invoice total amount must be >= 0 for invoices", .red⟩]
    else []
  else if r.receiptType = .creditNote then
    if 0 < r.receiptTotal then
      [⟨ruleMsg "RCPT040" "Invoice total amount must be <= 0 for credit notes", .red⟩]
    else []
  else [])

/-- Rule RCPT021: a non-VAT taxpayer using a positive tax percent; one
error per offending tax row (the source loop has no break). -/
def rcpt021Errs (r : Receipt) (taxpayer : Taxpayer) : List RuleError :=
  if taxpayer.vatNumber = none then
    r.receiptTaxes.filterMap (fun t =>
      match t.taxPercent with
      | some p =>
          if 0 < p then
            some ⟨ruleMsg "RCPT021" "VAT tax is used while taxpayer is not VAT taxpayer", .red⟩
          else none
      | none => none)
  else []

/-- The RCPT022 check of one line (price sign by receipt and line type). -/
def rcpt022Line (rt : ReceiptType) (l : ReceiptLine) : Option RuleError :=
  match l.receiptLinePrice with
  | none => none
  | some p =>
      if rt = .fiscalInvoice ∨ rt = .debitNote then
        if l.receiptLineType = .sale ∧ p ≤ 0 then
          some ⟨ruleMsg "RCPT022" "Invoice sales line price must be greater than 0", .red⟩
        else if l.receiptLineType = .discount ∧ 0 ≤ p then
          some ⟨ruleMsg "RCPT022" "Discount line price must be less than 0", .red⟩
        else none
      else if rt = .creditNote then
        if l.receiptLineType = .sale ∧ 0 ≤ p then
          some ⟨ruleMsg "RCPT022" "Credit note sales line price must be less than 0", .red⟩
        else none
      else none

/-- Rule RCPT022: first offending line only (the loop breaks). -/
def rcpt022Errs (r : Receipt) : List RuleError :=
  (r.receiptLines.findSome? (rcpt022Line r.receiptType)).toList

/-- Rule RCPT023: some line with non-positive quantity (loop breaks at the
first, and the message is constant). -/
def rcpt023Errs (r : Receipt) : List RuleError :=
  if r.receiptLines.any (fun l => decide (l.receiptLineQuantity ≤ 0)) then
    [⟨ruleMsg "RCPT023" "Invoice line quantity must be greater than 0", .red⟩]
  else []

/-- Rule RCPT024: some priced line whose total is not price × quantity
within 0.01 (loop breaks at the first, constant message). -/
def rcpt024Errs (r : Receipt) : List RuleError :=
  if r.receiptLines.any (fun l =>
      match l.receiptLinePrice with
      | some p => !floatEquals l.receiptLineTotal (p * l.receiptLineQuantity) (1 / 100)
      | none => false) then
    [⟨ruleMsg "RCPT024" "Invoice line total is not equal to unit price * quantity", .red⟩]
  else []

/-- Rule RCPT025 (`validateTaxes`): each receipt tax must match an
applicable tax on the `%d_%.2f` key (the Go map keeps the last tax for a
key) whose validity period covers the receipt date; one error per
offending row (no break). -/
def rcpt025Errs (r : Receipt) (applicableTaxes : List Tax) : List RuleError :=
  r.receiptTaxes.filterMap (fun rt =>
    let key := taxIdPctKey rt.taxID rt.taxPercent
    match applicableTaxes.reverse.find? (fun t => taxIdPctKey t.taxID t.taxPercent == key) with
    | none => some ⟨ruleMsg "RCPT025" "Invalid tax is used", .red⟩
    | some tax =>
        if decide (r.receiptDate < tax.taxValidFrom)
            || tax.taxValidTill.any (fun till => decide (till < r.receiptDate)) then
          some ⟨ruleMsg "RCPT025" "Receipt date is not in tax valid period", .red⟩
        else none)

/-- The sum of line totals sharing one `getTaxKey` key (the accumulation
map of `validateTaxAmounts`; a missing key reads as 0). -/
def lineTotalSumFor (lines : List ReceiptLine) (key : String) : ℚ :=
  ((lines.filter (fun l => getTaxKey l.taxCode l.taxPercent == key)).map
    (·.receiptLineTotal)).sum

/-- The expected tax amount of `validateTaxAmounts` for one tax row. -/
def expectedTaxAmount (taxInclusive : Bool) (lineTotal : ℚ) (percent : Option ℚ) : ℚ :=
  match percent with
  | some p =>
      if taxInclusive then lineTotal * (p / 100) / (1 + p / 100)
      else lineTotal * (p / 100)
  | none => 0

/-- Rule RCPT026 (`validateTaxAmounts`): first tax row whose amount is off
by more than 0.01 (the loop breaks, constant message). -/
def rcpt026Errs (r : Receipt) : List RuleError :=
  if r.receiptTaxes.any (fun t =>
      let lineTotal := lineTotalSumFor r.receiptLines (getTaxKey t.taxCode t.taxPercent)
      !floatEquals t.taxAmount
        (expectedTaxAmount r.receiptLinesTaxInclusive lineTotal t.taxPercent) (1 / 100)) then
    [⟨ruleMsg "RCPT026" "Incorrectly calculated tax amount", .red⟩]
  else []

/-- The expected sales-with-tax amount of `validateSalesAmounts`. -/
def expectedSalesAmount (taxInclusive : Bool) (lineTotal : ℚ) (percent : Option ℚ) : ℚ :=
  if taxInclusive then lineTotal
  else
    match percent with
    | some p => lineTotal * (1 + p / 100)
    | none => lineTotal

/-- Rule RCPT027 (`validateSalesAmounts`): first tax row whose
sales-with-tax is off by more than 0.01 (the loop breaks). -/
def rcpt027Errs (r : Receipt) : List RuleError :=
  if r.receiptTaxes.any (fun t =>
      let lineTotal := lineTotalSumFor r.receiptLines (getTaxKey t.taxCode t.taxPercent)
      !floatEquals t.salesAmountWithTax
        (expectedSalesAmount r.receiptLinesTaxInclusive lineTotal t.taxPercent) (1 / 100)) then
    [⟨ruleMsg "RCPT027" "Incorrectly calculated total sales amount", .red⟩]
  else []

/-- The RCPT028 check of one payment (sign by receipt type). -/
def rcpt028Payment (rt : ReceiptType) (p : Payment) : Option RuleError :=
  if rt = .fiscalInvoice ∨ rt = .debitNote then
    if p.paymentAmount < 0 then
      some ⟨ruleMsg "RCPT028" "Payment amount must be >= 0 for invoices", .red⟩
    else none
  else if rt = .creditNote then
    if 0 < p.paymentAmount then
      some ⟨ruleMsg "RCPT028" "Payment amount must be <= 0 for credit notes", .red⟩
    else none
  else none

/-- Rule RCPT028: first offending payment (the loop breaks). -/
def rcpt028Errs (r : Receipt) : List RuleError :=
  (r.receiptPayments.findSome? (rcpt028Payment r.receiptType)).toList

/-- Rule RCPT030: receipt date before the previous receipt's date. -/
def rcpt030Errs (r : Receipt) (previous : Option Receipt) : List RuleError :=
  match previous with
  | some p =>
      if r.receiptDate < p.receiptDate then
        [⟨ruleMsg "RCPT030" "Invoice date is earlier than previously submitted receipt date", .red⟩]
      else []
  | none => []

/-- Rule RCPT031: receipt date more than 5 minutes in the future of the
clock reading (`time.Now()`, modelled by the `now` argument). -/
def rcpt031Errs (r : Receipt) (now : ℤ) : List RuleError :=
  if now + 5 * 60 < r.receiptDate then
    [⟨ruleMsg "RCPT031" "Invoice is submitted with the future date", .yellow⟩]
  else []

/-- Rule RCPT041: receipt date after day open plus `dayMaxHrs` hours. -/
def rcpt041Errs (r : Receipt) (fiscalDayOpened fiscalDayMaxHrs : ℤ) : List RuleError :=
  if fiscalDayOpened + fiscalDayMaxHrs * 3600 < r.receiptDate then
    [⟨ruleMsg "RCPT041" "Invoice is issued after fiscal day end", .yellow⟩]
  else []

/-- Rule RCPT043: a buyer block must carry register name and TIN. -/
def rcpt043Errs (r : Receipt) : List RuleError :=
  match r.buyerData with
  | some b =>
      if b.buyerRegisterName = "" ∨ b.buyerTIN = "" then
        [⟨ruleMsg "RCPT043" "Mandatory buyer data fields are not provided", .red⟩]
      else []
  | none => []

/-- The RCPT047/RCPT048 check of one line for a VAT taxpayer. -/
def hsLine (l : ReceiptLine) : Option RuleError :=
  match l.receiptLineHSCode with
  | none => some ⟨ruleMsg "RCPT047" "HS code must be sent if taxpayer is a VAT payer", .red⟩
  | some hs =>
      if hs = "" then
        some ⟨ruleMsg "RCPT047" "HS code must be sent if taxpayer is a VAT payer", .red⟩
      else
        let len := hs.length
        if (match l.taxPercent with | some p => decide (0 < p) | none => false) then
          if len ≠ 4 ∧ len ≠ 8 then
            some ⟨ruleMsg "RCPT048" "HS code length must be 4 or 8 digits for VAT items", .red⟩
          else none
        else
          if len ≠ 8 then
            some ⟨ruleMsg "RCPT048" "HS code length must be 8 digits for exempt/zero-rated items", .red⟩
          else none

/-- Rules RCPT047/RCPT048: for VAT taxpayers, first offending line (the
loop breaks on either error). -/
def hsErrs (r : Receipt) (taxpayer : Taxpayer) : List RuleError :=
  if taxpayer.vatNumber ≠ none then
    (r.receiptLines.findSome? hsLine).toList
  else []

/-- `ValidationService.ValidateReceipt`: the rule blocks in source order,
folded into one result exactly as the sequence of `addError` calls does. -/
def ValidateReceipt (r : Receipt) (previous : Option Receipt)
    (taxpayer : Taxpayer) (applicableTaxes : List Tax)
    (fiscalDayOpened fiscalDayMaxHrs : ℤ) (now : ℤ) : ValidationResult :=
  resultOf
    (rcpt010Errs r ++ rcpt011Errs r previous ++ rcpt012Errs r previous
      ++ rcpt014Errs r fiscalDayOpened ++ rcpt015Errs r ++ rcpt016Errs r
      ++ rcpt017Errs r ++ rcpt018Errs r ++ totalsErrs r
      ++ rcpt021Errs r taxpayer ++ rcpt022Errs r ++ rcpt023Errs r
      ++ rcpt024Errs r ++ rcpt025Errs r applicableTaxes ++ rcpt026Errs r
      ++ rcpt027Errs r ++ rcpt028Errs r ++ rcpt030Errs r previous
      ++ rcpt031Errs r now ++ rcpt041Errs r fiscalDayOpened fiscalDayMaxHrs
      ++ rcpt043Errs r ++ hsErrs r taxpayer)

/-- `ValidationService.ValidateCreditDebitNote`: the credit/debit-note
rule blocks in source order (a missing original short-circuits to
RCPT032 alone). -/
def ValidateCreditDebitNote (note : Receipt) (original : Option Receipt)
    (allCreditNotes allDebitNotes : List Receipt) : ValidationResult :=
  match original with
  | none => resultOf [⟨ruleMsg "RCPT032" "Credit/debit note refers to non-existing invoice", .red⟩]
  | some orig =>
      let totalCreditAmount := (allCreditNotes.map (·.receiptTotal)).sum
      let totalDebitAmount := (allDebitNotes.map (·.receiptTotal)).sum
      let remainingAmount := orig.receiptTotal - totalCreditAmount + totalDebitAmount
      resultOf
        ((if orig.receiptDate < addYears note.receiptDate (-1) then
            [⟨ruleMsg "RCPT033" "Credited/debited invoice is issued more than 12 months ago", .red⟩]
          else [])
        ++ (if note.receiptNotes = none ∨ note.receiptNotes = some "" then
            [⟨ruleMsg "RCPT034" "Note for credit/debit note is not provided", .red⟩]
          else [])
        ++ (if note.receiptType = .creditNote ∧ remainingAmount + note.receiptTotal < 0 then
            [⟨ruleMsg "RCPT035" "Total credit note amount exceeds original invoice amount", .red⟩]
          else [])
        ++ (if note.receiptTaxes.any (fun t =>
              !orig.receiptTaxes.any (fun o => o.taxID == t.taxID)) then
            [⟨ruleMsg "RCPT036" "Credit/debit note uses other taxes than are used in the original invoice", .red⟩]
          else [])
        ++ (if note.receiptCurrency ≠ orig.receiptCurrency then
            [⟨ruleMsg "RCPT042" "Credit/debit note uses other currency than is used in the original invoice", .red⟩]
          else [])
        ++ (if note.receiptType = .fiscalInvoice ∧ note.creditDebitNote ≠ none then
            [⟨ruleMsg "RCPT029" "Credited/debited invoice information provided for regular invoice", .red⟩]
          else []))

/-! ## Requests, responses and errors -/

/-- `models.SubmitReceiptRequest`. -/
structure SubmitReceiptRequest where
  deviceID : ℤ
  receipt : Receipt
deriving DecidableEq, Repr

/-- `models.SubmitReceiptResponse`. -/
structure SubmitReceiptResponse where
  operationID : String
  receiptID : ℤ
  serverDate : ℤ
  receiptServerSignature : SignatureDataEx
deriving DecidableEq, Repr

/-- `models.OpenFiscalDayRequest`. -/
structure OpenFiscalDayRequest where
  deviceID : ℤ
deriving DecidableEq, Repr

/-- `models.OpenFiscalDayResponse`. -/
structure OpenFiscalDayResponse where
  operationID : String
  fiscalDayNo : ℤ
deriving DecidableEq, Repr

/-- `models.CloseFiscalDayRequest`. -/
structure CloseFiscalDayRequest where
  deviceID : ℤ
  fiscalDayDeviceSignature : Option SignatureData
  fiscalDayCounters : List FiscalDayCounter
deriving DecidableEq, Repr

/-- `models.FiscalDayDocumentQuantity` (live struct in `part_007`, with the
receipt type as a raw int). -/
structure FiscalDayDocumentQuantity where
  receiptType : ℤ
  receiptCurrency : String
  receiptQuantity : ℤ
  receiptTotalAmount : ℚ
deriving DecidableEq, Repr

/-- `models.CloseFiscalDayResponse`. -/
structure CloseFiscalDayResponse where
  operationID : String
  fiscalDayServerSignature : SignatureDataEx
  fiscalDayCounters : List FiscalDayCounter
  fiscalDayDocumentQuantities : List FiscalDayDocumentQuantity
deriving DecidableEq, Repr

/-- `models.GetStatusResponse`, the shape `GetFiscalDayStatus` returns
(the counter and document-quantity fields it never sets are omitted). -/
structure GetFiscalDayStatusResponse where
  operationID : String
  fiscalDayStatus : String
  fiscalDayNo : Option ℤ
  fiscalDayReconciliationMode : Option String
  fiscalDayServerSignature : Option SignatureDataEx
  fiscalDayClosed : Option ℤ
  lastReceiptGlobalNo : Option ℤ
deriving DecidableEq, Repr

/-- The failure modes of a modelled operation: a `models.APIError`
(status, title, errorCode) as built by `models.NewAPIError`, or a Go
nil-pointer dereference, which in the source is a runtime panic and is
made explicit here. -/
inductive OpError where
  | api (status : ℤ) (title : String) (errorCode : String)
  | nilDeref (site : String)
deriving DecidableEq, Repr

/-- The iota value of a `models.ReceiptType`. -/
def ReceiptType.toInt : ReceiptType → ℤ
  | .fiscalInvoice => 0
  | .creditNote => 1
  | .debitNote => 2

/-! ## Server state and the repository layer as pure queries

The relational store is modelled as lists of rows; each repository method
of `receipt_repository.go` / `device_repository.go` becomes a pure query
over them, faithful to its SQL. -/

/-- The persisted state the modelled operations touch, together with the
injectable clock (`time.Now()`) and the supply index for operation IDs. -/
structure ServerState where
  devices : List Device
  taxpayers : List Taxpayer
  applicableTaxes : List Tax
  fiscalDays : List FiscalDay
  receipts : List Receipt
  fiscalCounters : List (ℤ × FiscalDayCounter)
  nextReceiptID : ℤ
  nextFiscalDayID : ℤ
  opCounter : Nat
  now : ℤ
deriving DecidableEq, Repr

/-- `generateOperationID` calls `uuid.New()`; modelled as drawing the next
identifier from an injectable supply indexed by the state's counter (so
two draws are distinct, as fresh UUIDs are). -/
def generateOperationID (n : Nat) : String := "op-" ++ toString n

/-- `deviceRepository.GetByDeviceID`. -/
def getByDeviceID (s : ServerState) (deviceID : ℤ) : Option Device :=
  s.devices.find? (fun d => d.deviceID == deviceID)

/-- `deviceRepository.GetTaxpayer`. -/
def getTaxpayer (s : ServerState) (taxpayerID : ℤ) : Option Taxpayer :=
  s.taxpayers.find? (fun t => t.id == taxpayerID)

/-- The step of an `ORDER BY key DESC LIMIT 1` scan: keep the row with
the strictly greater key (the first such row wins ties). -/
def pickStep (f : α → ℤ) (a : Option α) (x : α) : Option α :=
  match a with
  | none => some x
  | some m => if f m < f x then some x else some m

/-- `fiscalDayRepository.GetCurrent`: the device's fiscal day with the
greatest `fiscal_day_no` (`ORDER BY fiscal_day_no DESC LIMIT 1`). -/
def fiscalDayGetCurrent (s : ServerState) (deviceID : ℤ) : Option FiscalDay :=
  (s.fiscalDays.filter (fun d => d.deviceID == deviceID)).foldl
    (pickStep fun d => d.fiscalDayNo) none

/-- `receiptRepository.GetByGlobalNo`: lookup by (deviceID, globalNo),
unique by the schema's constraint. -/
def getByGlobalNo (s : ServerState) (deviceID globalNo : ℤ) : Option Receipt :=
  s.receipts.find? (fun r => r.deviceID == deviceID && r.receiptGlobalNo == globalNo)

/-- `receiptRepository.GetPreviousReceipt`: the receipt of the same device
and fiscal day with the greatest global number strictly below `globalNo`
(`ORDER BY receipt_global_no DESC LIMIT 1`). -/
def getPreviousReceipt (s : ServerState) (deviceID fiscalDayID globalNo : ℤ) :
    Option Receipt :=
  (s.receipts.filter (fun r =>
      r.deviceID == deviceID && r.fiscalDayID == fiscalDayID
        && decide (r.receiptGlobalNo < globalNo))).foldl
    (pickStep fun r => r.receiptGlobalNo) none

/-- `receiptRepository.GetByReceiptID`. -/
def getByReceiptID (s : ServerState) (receiptID : ℤ) : Option Receipt :=
  s.receipts.find? (fun r => r.receiptID == receiptID)

/-- `receiptRepository.GetReceiptsWithValidationErrors`: the day's
receipts whose stored color is Red or Grey. -/
def getReceiptsWithValidationErrors (s : ServerState) (fiscalDayID : ℤ) :
    List Receipt :=
  s.receipts.filter (fun r =>
    r.fiscalDayID == fiscalDayID
      && (r.validationColor == some .red || r.validationColor == some .grey))

/-- The credit-note half of `receiptRepository.GetCreditDebitNotes`. -/
def getCreditNotes (s : ServerState) (originalReceiptID : ℤ) : List Receipt :=
  s.receipts.filter (fun r =>
    r.receiptType == .creditNote
      && r.creditDebitNote.any (fun c => c.receiptID == some originalReceiptID))

/-- The debit-note half of `receiptRepository.GetCreditDebitNotes`. -/
def getDebitNotes (s : ServerState) (originalReceiptID : ℤ) : List Receipt :=
  s.receipts.filter (fun r =>
    r.receiptType == .debitNote
      && r.creditDebitNote.any (fun c => c.receiptID == some originalReceiptID))

/-! ## Counter aggregation and comparison
(`fiscalDayRepository.calculateActualCounters` / `compareCounters`) -/

/-- Distinct elements in order of first occurrence (the key set of a SQL
`GROUP BY`; its unspecified output order is fixed this way). -/
def dedupKeepFirst [BEq α] (l : List α) : List α :=
  l.foldl (fun acc x => if acc.contains x then acc else acc ++ [x]) []

/-- One by-tax aggregation query of `calculateActualCounters`: rows of the
day's receipts of type `rtype` joined with their tax rows, grouped by
(tax_id, tax_percent, currency), summing `value` over each group. -/
def groupTaxCounters (s : ServerState) (fiscalDayID : ℤ) (rtype : ReceiptType)
    (ctype : ℤ) (value : ReceiptTax → ℚ) : List FiscalDayCounter :=
  let rows :=
    ((s.receipts.filter (fun r =>
        r.fiscalDayID == fiscalDayID && r.receiptType == rtype)).map
      (fun r => r.receiptTaxes.map (fun t => (r.receiptCurrency, t)))).flatten
  let keys := dedupKeepFirst (rows.map (fun ct => (ct.2.taxID, ct.2.taxPercent, ct.1)))
  keys.map (fun k =>
    { fiscalCounterType := ctype
      fiscalCounterCurrency := k.2.2
      fiscalCounterTaxID := some k.1
      fiscalCounterTaxPercent := k.2.1
      fiscalCounterMoneyType := none
      fiscalCounterValue :=
        ((rows.filter (fun ct => (ct.2.taxID, ct.2.taxPercent, ct.1) == k)).map
          (fun ct => value ct.2)).sum })

/-- The BalanceByMoneyType aggregation query of `calculateActualCounters`:
all the day's receipts joined with their payments, grouped by
(money_type_code, currency), summing the amounts. -/
def balanceCounters (s : ServerState) (fiscalDayID : ℤ) : List FiscalDayCounter :=
  let rows :=
    ((s.receipts.filter (fun r => r.fiscalDayID == fiscalDayID)).map
      (fun r => r.receiptPayments.map (fun p => (r.receiptCurrency, p)))).flatten
  let keys := dedupKeepFirst (rows.map (fun cp => (cp.2.moneyTypeCode.toInt, cp.1)))
  keys.map (fun k =>
    { fiscalCounterType := 6
      fiscalCounterCurrency := k.2
      fiscalCounterTaxID := none
      fiscalCounterTaxPercent := none
      fiscalCounterMoneyType := some k.1
      fiscalCounterValue :=
        ((rows.filter (fun cp => (cp.2.moneyTypeCode.toInt, cp.1) == k)).map
          (fun cp => cp.2.paymentAmount)).sum })

/-- `fiscalDayRepository.calculateActualCounters`: the five aggregation
queries appended in source order (types 0, 1, 2, 4 by tax; type 6 by
money type — types 3 and 5 are never computed by the source). -/
def calculateActualCounters (s : ServerState) (fiscalDayID : ℤ) :
    List FiscalDayCounter :=
  groupTaxCounters s fiscalDayID .fiscalInvoice 0 (·.salesAmountWithTax)
    ++ groupTaxCounters s fiscalDayID .fiscalInvoice 1 (·.taxAmount)
    ++ groupTaxCounters s fiscalDayID .creditNote 2 (·.salesAmountWithTax)
    ++ groupTaxCounters s fiscalDayID .debitNote 4 (·.salesAmountWithTax)
    ++ balanceCounters s fiscalDayID

/-- Go's `string(n)` conversion of a small integer: the one-character
string of that code point (as `fiscalDayRepository.counterKey` uses it). -/
def goStringOfInt (n : ℤ) : String := String.mk [Char.ofNat n.toNat]

/-- `fiscalDayRepository.counterKey`. -/
def counterKey (c : FiscalDayCounter) : String :=
  goStringOfInt c.fiscalCounterType ++ "_" ++ c.fiscalCounterCurrency ++ "_"
    ++ (match c.fiscalCounterTaxID with
        | some t => goStringOfInt t ++ "_"
        | none => "")
    ++ (match c.fiscalCounterTaxPercent with
        | some p => fmt2 p ++ "_"
        | none => "")
    ++ (match c.fiscalCounterMoneyType with
        | some m => goStringOfInt m
        | none => "")

/-- Insertion into a key-value list with overwrite (Go map write). -/
def mapPut (k : String) (v : ℚ) (m : List (String × ℚ)) : List (String × ℚ) :=
  if m.any (fun kv => kv.1 == k) then
    m.map (fun kv => if kv.1 == k then (k, v) else kv)
  else m ++ [(k, v)]

/-- The `map[string]float64` built by `compareCounters` from a counter
list (later counters with the same key overwrite earlier ones). -/
def buildCounterMap (cs : List FiscalDayCounter) : List (String × ℚ) :=
  cs.foldl (fun m c => mapPut (counterKey c) c.fiscalCounterValue m) []

/-- `fiscalDayRepository.compareCounters`: equal numbers of distinct keys,
and every submitted key present among the actual values within 0.01. -/
def compareCounters (submitted actual : List FiscalDayCounter) : Bool :=
  let submittedMap := buildCounterMap submitted
  let actualMap := buildCounterMap actual
  if submittedMap.length ≠ actualMap.length then false
  else
    submittedMap.all (fun kv =>
      match actualMap.find? (fun kv2 => kv2.1 == kv.1) with
      | none => false
      | some kv2 => decide (|kv.2 - kv2.2| ≤ 1 / 100))

/-- `fiscalDayRepository.ValidateCounters`: submitted counters against the
counters computed from the day's receipts. -/
def ValidateCounters (s : ServerState) (fiscalDayID : ℤ)
    (submittedCounters : List FiscalDayCounter) : Bool :=
  compareCounters submittedCounters (calculateActualCounters s fiscalDayID)

/-- The ordering of `fiscalDayRepository.GetCounters`
(`ORDER BY fiscal_counter_type, fiscal_counter_currency,
fiscal_counter_tax_id`, nulls last). -/
def storedCounterLess (a b : FiscalDayCounter) : Bool :=
  if a.fiscalCounterType ≠ b.fiscalCounterType then
    a.fiscalCounterType < b.fiscalCounterType
  else if a.fiscalCounterCurrency ≠ b.fiscalCounterCurrency then
    a.fiscalCounterCurrency < b.fiscalCounterCurrency
  else
    match a.fiscalCounterTaxID, b.fiscalCounterTaxID with
    | some x, some y => x < y
    | some _, none => true
    | _, _ => false

/-- `fiscalDayRepository.GetCounters`: the day's stored counter rows with
nonzero value, ordered. -/
def getStoredCounters (s : ServerState) (fiscalDayID : ℤ) : List FiscalDayCounter :=
  sortByLess storedCounterLess
    ((s.fiscalCounters.filter (fun fc =>
        fc.1 == fiscalDayID && fc.2.fiscalCounterValue != 0)).map (·.2))

/-- `deviceRepository.GetFiscalDayDocumentQuantities`: the day's receipts
grouped by (receipt_type, receipt_currency) with count and total sum,
ordered by the group key. -/
def getFiscalDayDocumentQuantities (s : ServerState) (fiscalDayID : ℤ) :
    List FiscalDayDocumentQuantity :=
  let rows := s.receipts.filter (fun r => r.fiscalDayID == fiscalDayID)
  let keys := dedupKeepFirst (rows.map (fun r => (r.receiptType.toInt, r.receiptCurrency)))
  sortByLess
    (fun a b =>
      if a.receiptType ≠ b.receiptType then a.receiptType < b.receiptType
      else a.receiptCurrency < b.receiptCurrency)
    (keys.map (fun k =>
      let group := rows.filter (fun r => (r.receiptType.toInt, r.receiptCurrency) == k)
      { receiptType := k.1
        receiptCurrency := k.2
        receiptQuantity := group.length
        receiptTotalAmount := (group.map (·.receiptTotal)).sum }))

/-! ## Receipt pipeline (`ReceiptService.SubmitReceipt`, `part_009`) -/

/-- The credit/debit-note branch of `SubmitReceipt`: when the receipt is a
note carrying a reference with a receipt ID, run
`ValidateCreditDebitNote` against the resolved original and its existing
notes and merge the result into the main validation result exactly as the
source does. -/
def mergeCreditDebit (s : ServerState) (rcpt : Receipt)
    (vres : ValidationResult) : ValidationResult :=
  if rcpt.receiptType = .creditNote ∨ rcpt.receiptType = .debitNote then
    match rcpt.creditDebitNote with
    | some cd =>
        match cd.receiptID with
        | some rid =>
            let cdv := ValidateCreditDebitNote rcpt (getByReceiptID s rid)
              (getCreditNotes s rid) (getDebitNotes s rid)
            { isValid := vres.isValid && cdv.isValid
              errors := vres.errors ++ cdv.errors
              color :=
                if cdv.color ≠ none ∧ (vres.color = none ∨ cdv.color = some .red) then
                  cdv.color
                else vres.color }
        | none => vres
    | none => vres
  else vres

/-- The input string of `ReceiptService.generateServerSignature`:
`base64(deviceSignature.signature) || receiptID || serverDate`. At the
point the source builds it, `receipt.ReceiptID` still holds the value
bound from the request (the store assigns the server ID only afterwards). -/
def serverSignatureInput (rcpt : Receipt) (serverDate : ℤ) : String :=
  encodeBase64 rcpt.receiptDeviceSignature.signature
    ++ toString rcpt.receiptID ++ formatDateTime serverDate

/-- `ReceiptService.SubmitReceipt`. `signData` models
`CryptoService.SignData` (the injected server signing key). The phases
mirror the source: device and mode checks, current-day lookup and status
check, dedup by (deviceID, receiptGlobalNo) returning the stored
signature, chain lookup when the counter exceeds 1, validation, hashing,
counter-signing, persist, and the day-cursor update. -/
def SubmitReceipt (signData : List Nat → List Nat) (s : ServerState)
    (req : SubmitReceiptRequest) :
    Except OpError (SubmitReceiptResponse × ServerState) :=
  match getByDeviceID s req.deviceID with
  | none => .error (.api 422 "Device not found" "DEV01")
  | some device =>
    if device.operatingMode = .offline then
      .error (.api 422 "Device operating mode is Offline" "DEV01")
    else
      match fiscalDayGetCurrent s req.deviceID with
      | none => .error (.api 422 "No fiscal day opened" "RCPT01")
      | some fiscalDay =>
        if fiscalDay.status ≠ .opened ∧ fiscalDay.status ≠ .closeFailed then
          .error (.api 422 "Submitting receipt is not allowed" "RCPT01")
        else
          let rcpt := { req.receipt with fiscalDayID := fiscalDay.id }
          match getByGlobalNo s req.deviceID rcpt.receiptGlobalNo with
          | some existing =>
              match existing.serverDate, existing.receiptServerSignature with
              | some d, some sig =>
                  .ok ({ operationID := generateOperationID s.opCounter
                         receiptID := existing.receiptID
                         serverDate := d
                         receiptServerSignature := sig },
                    { s with opCounter := s.opCounter + 1 })
              | _, _ => .error (.nilDeref "existing.ServerDate")
          | none =>
              let previous :=
                if 1 < rcpt.receiptCounter then
                  getPreviousReceipt s req.deviceID fiscalDay.id rcpt.receiptGlobalNo
                else none
              match getTaxpayer s device.taxpayerID with
              | none => .error (.nilDeref "taxpayer")
              | some taxpayer =>
                  let vres := mergeCreditDebit s rcpt
                    (ValidateReceipt rcpt previous taxpayer s.applicableTaxes
                      fiscalDay.fiscalDayOpened taxpayer.taxPayerDayMaxHrs s.now)
                  let previousHash :=
                    match previous with
                    | some p => p.receiptHash
                    | none => []
                  let receiptHash := GenerateReceiptHash rcpt previousHash
                  let serverDate := s.now
                  let serverSignature : SignatureDataEx :=
                    { hash := receiptHash
                      signature := signData (strBytes (serverSignatureInput rcpt serverDate))
                      certificateThumbprint := List.replicate 20 0 }
                  let stored : Receipt :=
                    { rcpt with
                        receiptHash := receiptHash
                        validationColor := vres.color
                        validationErrors := vres.errors
                        serverDate := some serverDate
                        receiptServerSignature := some serverSignature
                        id := s.nextReceiptID
                        receiptID := s.nextReceiptID }
                  let day2 := { fiscalDay with
                    lastReceiptGlobalNo := some rcpt.receiptGlobalNo }
                  .ok ({ operationID := generateOperationID s.opCounter
                         receiptID := stored.receiptID
                         serverDate := serverDate
                         receiptServerSignature := serverSignature },
                    { s with
                        receipts := s.receipts ++ [stored]
                        fiscalDays := s.fiscalDays.map
                          (fun d => if d.id == fiscalDay.id then day2 else d)
                        nextReceiptID := s.nextReceiptID + 1
                        opCounter := s.opCounter + 1 })

/-! ## Fiscal-day controller (`FiscalDayService`, `part_011`) -/

/-- `FiscalDayService.OpenFiscalDay`. -/
def OpenFiscalDay (s : ServerState) (req : OpenFiscalDayRequest) :
    Except OpError (OpenFiscalDayResponse × ServerState) :=
  match getByDeviceID s req.deviceID with
  | none => .error (.api 422 "Device not found" "DEV01")
  | some device =>
    if device.operatingMode = .offline then
      .error (.api 422 "Device operating mode is Offline" "DEV01")
    else
      let currentDay := fiscalDayGetCurrent s req.deviceID
      if currentDay.any (fun d => d.status == .opened) then
        .error (.api 422 "Fiscal day is already opened" "FISC01")
      else if currentDay.any (fun d => d.status != .closed) then
        .error (.api 422 "Previous fiscal day is not closed" "FISC02")
      else
        let nextDayNo :=
          match currentDay with
          | some d => d.fiscalDayNo + 1
          | none => 1
        let newDay : FiscalDay :=
          { id := s.nextFiscalDayID
            deviceID := req.deviceID
            fiscalDayNo := nextDayNo
            fiscalDayOpened := s.now
            fiscalDayClosed := none
            status := .opened
            reconciliationMode := none
            fiscalDayDeviceSignature := none
            fiscalDayServerSignature := none
            lastReceiptGlobalNo := none }
        .ok ({ operationID := generateOperationID s.opCounter
               fiscalDayNo := nextDayNo },
          { s with
              fiscalDays := s.fiscalDays ++ [newDay]
              nextFiscalDayID := s.nextFiscalDayID + 1
              opCounter := s.opCounter + 1 })

/-- `FiscalDayService.CloseFiscalDay`. `signData` models
`CryptoService.SignData`. Mirrors the source: device and mode checks,
current-day lookup and status check, the Red/Grey blocking-error guard,
Manual reconciliation with `ValidateCounters` when the request carries
counters (else Auto with stored counters and a mandatory device
signature), server signing, day update and counter persistence. -/
def CloseFiscalDay (signData : List Nat → List Nat) (s : ServerState)
    (req : CloseFiscalDayRequest) :
    Except OpError (CloseFiscalDayResponse × ServerState) :=
  match getByDeviceID s req.deviceID with
  | none => .error (.api 422 "Device not found" "DEV01")
  | some device =>
    if device.operatingMode = .offline then
      .error (.api 422 "Device operating mode is Offline" "DEV01")
    else
      match fiscalDayGetCurrent s req.deviceID with
      | none => .error (.api 422 "No fiscal day to close" "FISC03")
      | some fiscalDay =>
        if fiscalDay.status ≠ .opened ∧ fiscalDay.status ≠ .closeFailed then
          .error (.api 422 "Fiscal day cannot be closed" "FISC03")
        else
          let hasBlockingErrors :=
            (getReceiptsWithValidationErrors s fiscalDay.id).any (fun r =>
              r.validationColor == some .red || r.validationColor == some .grey)
          if hasBlockingErrors then
            .error (.api 422 "Fiscal day has receipts with validation errors" "FISC04")
          else
            let reconciliationMode : FiscalDayReconciliationMode :=
              if 0 < req.fiscalDayCounters.length then .manual else .auto
            let countersOrErr : Except OpError (List FiscalDayCounter) :=
              if reconciliationMode = .manual then
                if ValidateCounters s fiscalDay.id req.fiscalDayCounters then
                  .ok req.fiscalDayCounters
                else
                  .error (.api 422 "Submitted counters do not match actual values" "FISC04")
              else .ok (getStoredCounters s fiscalDay.id)
            match countersOrErr with
            | .error e => .error e
            | .ok counters =>
                if reconciliationMode = .auto ∧ req.fiscalDayDeviceSignature = none then
                  .error (.api 422 "Device signature required for auto reconciliation" "FISC04")
                else
                  let fiscalDayDate := formatDate fiscalDay.fiscalDayOpened
                  let closedAt := s.now
                  let serverHash := GenerateFiscalDayServerHash req.deviceID
                    fiscalDay.fiscalDayNo fiscalDayDate (formatDateTime closedAt)
                    reconciliationMode counters
                    (req.fiscalDayDeviceSignature.map (·.signature))
                  let serverSignature : SignatureDataEx :=
                    { hash := serverHash
                      signature := signData serverHash
                      certificateThumbprint := List.replicate 20 0 }
                  let day2 := { fiscalDay with
                    fiscalDayClosed := some closedAt
                    status := .closed
                    reconciliationMode := some reconciliationMode
                    fiscalDayDeviceSignature := req.fiscalDayDeviceSignature
                    fiscalDayServerSignature := some serverSignature }
                  .ok ({ operationID := generateOperationID s.opCounter
                         fiscalDayServerSignature := serverSignature
                         fiscalDayCounters := counters
                         fiscalDayDocumentQuantities :=
                           getFiscalDayDocumentQuantities s fiscalDay.id },
                    { s with
                        fiscalDays := s.fiscalDays.map
                          (fun d => if d.id == fiscalDay.id then day2 else d)
                        fiscalCounters :=
                          (s.fiscalCounters.filter (fun fc => fc.1 != fiscalDay.id))
                            ++ (counters.filter (fun c => c.fiscalCounterValue != 0)).map
                              (fun c => (fiscalDay.id, c))
                        opCounter := s.opCounter + 1 })

/-- `FiscalDayService.GetFiscalDayStatus`. With no current day it reports
Closed; otherwise the source reads `fiscalDay.ReconciliationMode.String()`
unconditionally, dereferencing the pointer — on a day that never closed the
pointer is nil and the call panics (modelled as `OpError.nilDeref`). -/
def GetFiscalDayStatus (s : ServerState) (deviceID : ℤ) :
    Except OpError GetFiscalDayStatusResponse :=
  match fiscalDayGetCurrent s deviceID with
  | none =>
      .ok { operationID := generateOperationID s.opCounter
            fiscalDayStatus := FiscalDayStatus.closed.goName
            fiscalDayNo := none
            fiscalDayReconciliationMode := none
            fiscalDayServerSignature := none
            fiscalDayClosed := none
            lastReceiptGlobalNo := none }
  | some fiscalDay =>
      match fiscalDay.reconciliationMode with
      | none => .error (.nilDeref "fiscalDay.ReconciliationMode")
      | some mode =>
          .ok { operationID := generateOperationID s.opCounter
                fiscalDayStatus := fiscalDay.status.goName
                fiscalDayNo := some fiscalDay.fiscalDayNo
                fiscalDayReconciliationMode := some mode.goName
                fiscalDayServerSignature := fiscalDay.fiscalDayServerSignature
                fiscalDayClosed := fiscalDay.fiscalDayClosed
                lastReceiptGlobalNo := fiscalDay.lastReceiptGlobalNo }

/-! ## Concrete sample data for evaluation theorems -/

/-- A line item of the sample receipt. -/
def baseLine : ReceiptLine :=
  { receiptLineType := .sale
    receiptLineNo := 1
    receiptLineHSCode := some "12345678"
    receiptLineName := "Item"
    receiptLinePrice := some 100
    receiptLineQuantity := 1
    receiptLineTotal := 100
    taxCode := some "A"
    taxPercent := some 15
    taxID := 1 }

/-- A clean sample receipt: first receipt of the day for device 1001,
100.00 USD tax-inclusive at 15% VAT, paid cash. -/
def baseReceipt : Receipt :=
  { id := 0
    receiptID := 0
    deviceID := 1001
    fiscalDayID := 0
    receiptType := .fiscalInvoice
    receiptCurrency := "USD"
    receiptCounter := 1
    receiptGlobalNo := 1
    invoiceNo := "INV-1"
    buyerData := none
    receiptNotes := none
    receiptDate := 1705314600
    creditDebitNote := none
    receiptLinesTaxInclusive := true
    receiptLines := [baseLine]
    receiptTaxes := [{ taxCode := some "A", taxPercent := some 15, taxID := 1,
                       taxAmount := 1304 / 100, salesAmountWithTax := 100 }]
    receiptPayments := [{ moneyTypeCode := .cash, paymentAmount := 100 }]
    receiptTotal := 100
    receiptDeviceSignature := { hash := [], signature := [1, 2, 3] }
    receiptServerSignature := none
    receiptHash := []
    validationColor := none
    validationErrors := []
    serverDate := none }

/-- The sample fiscal day: day 1 of device 1001, currently Opened and
never closed (no reconciliation mode). -/
def baseDay : FiscalDay :=
  { id := 10
    deviceID := 1001
    fiscalDayNo := 1
    fiscalDayOpened := 1705305600
    fiscalDayClosed := none
    status := .opened
    reconciliationMode := none
    fiscalDayDeviceSignature := none
    fiscalDayServerSignature := none
    lastReceiptGlobalNo := none }

/-- The sample taxpayer (a VAT taxpayer, so HS-code checks apply). -/
def baseTaxpayer : Taxpayer :=
  { id := 5, vatNumber := some "123456789", status := "Active", taxPayerDayMaxHrs := 24 }

/-- The sample device, Online. -/
def baseDevice : Device :=
  { deviceID := 1001, taxpayerID := 5, operatingMode := .online }

/-- The sample applicable tax: taxID 1 at 15%, valid from the epoch. -/
def baseTax : Tax :=
  { taxID := 1, taxPercent := some 15, taxValidFrom := 0, taxValidTill := none }

/-- The sample server state: one device with one open fiscal day. -/
def baseState : ServerState :=
  { devices := [baseDevice]
    taxpayers := [baseTaxpayer]
    applicableTaxes := [baseTax]
    fiscalDays := [baseDay]
    receipts := []
    fiscalCounters := []
    nextReceiptID := 100
    nextFiscalDayID := 11
    opCounter := 0
    now := 1705314600 }

/-! ## Claim C9 — receipt total scaling in the canonical encoding -/

/-- C9 counterexample. The claim states item 6 of the canonical receipt
encoding is receiptTotal × 100 rounded to the NEAREST integer cent, with
1.235 encoding as 124. On the code, `int64(receipt.ReceiptTotal * 100)`
truncates: 1.235 × 100 = 123.5 encodes as 123, not the nearest integer
124, as the canonical encoding of a receipt with total 1.235 shows. -/
theorem receiptTotal_claim_counterexample :
    goInt64 ((1235 / 1000 : ℚ) * 100) = 123
      ∧ round ((1235 / 1000 : ℚ) * 100) = 124
      ∧ (123 : ℤ) ≠ 124
      ∧ encodeReceipt { baseReceipt with receiptTaxes := [], receiptTotal := 1235 / 1000 }
          = "1001FISCALINVOICEUSD12024-01-15T10:30:00123" := by
  refine ⟨by with_unfolding_all rfl, ?_, by decide, by with_unfolding_all rfl⟩
  norm_num [round_eq]

/-- C9 as amended: item 6 of the canonical encoding is
`receiptTotal × 100` truncated TOWARD ZERO (the Go `int64` conversion),
so it agrees with the floor on nonnegative values and with the negated
floor of the negation on negative values. -/
theorem receiptTotal_scaling_truncates (q : ℚ) :
    (0 ≤ q → goInt64 (q * 100) = ⌊q * 100⌋)
      ∧ (q < 0 → goInt64 (q * 100) = -⌊-(q * 100)⌋) := by
  have key : ∀ x : ℚ, 0 ≤ x → goInt64 x = ⌊x⌋ := by
    intro x hx
    have hnum : 0 ≤ x.num := Rat.num_nonneg.mpr hx
    unfold goInt64
    rw [if_pos hnum, Rat.floor_def]
    conv_rhs => rw [← Int.toNat_of_nonneg hnum]
    norm_cast
  constructor
  · intro hq
    exact key _ (by positivity)
  · intro hq
    have hx : (q * 100) < 0 := by nlinarith
    have hneg : ¬ 0 ≤ (q * 100).num := by
      intro hc
      exact absurd (Rat.num_nonneg.mp hc) (not_le.mpr hx)
    have h2 : goInt64 (-(q * 100)) = ⌊-(q * 100)⌋ := key _ (by nlinarith)
    unfold goInt64 at h2 ⊢
    rw [if_neg hneg]
    rw [if_pos (by rw [Rat.num_neg_eq_neg_num]; omega),
        Rat.num_neg_eq_neg_num, Rat.den_neg_eq_den] at h2
    rw [← h2]

/-- Witness for the amended C9 theorem at the concrete totals 3/16 and
-3/16 (whose binary representation is exact, so the Go float product is
exact as well). -/
theorem receiptTotal_scaling_truncates_witness :
    goInt64 ((3 / 16 : ℚ) * 100) = ⌊(3 / 16 : ℚ) * 100⌋
      ∧ goInt64 ((-3 / 16 : ℚ) * 100) = -⌊-((-3 / 16 : ℚ) * 100)⌋ :=
  ⟨(receiptTotal_scaling_truncates (3 / 16)).1 (by norm_num),
   (receiptTotal_scaling_truncates (-3 / 16)).2 (by norm_num)⟩

/-! ## Claim C5 — enum names versus numeric positions in the fiscal-day
canonical encoding -/

/-- A SaleByTax counter: USD at 15%, value 100.00. -/
def saleByTaxSample : FiscalDayCounter :=
  { fiscalCounterType := 0
    fiscalCounterCurrency := "USD"
    fiscalCounterTaxID := some 1
    fiscalCounterTaxPercent := some 15
    fiscalCounterMoneyType := none
    fiscalCounterValue := 100 }

/-- A BalanceByMoneyType counter: USD cash, value 50.00. -/
def cashBalanceSample : FiscalDayCounter :=
  { fiscalCounterType := 6
    fiscalCounterCurrency := "USD"
    fiscalCounterTaxID := none
    fiscalCounterTaxPercent := none
    fiscalCounterMoneyType := some 0
    fiscalCounterValue := 50 }

/-- C5, evaluating the code at the failing input. The fiscal-day encoder
writes `strings.ToUpper(strconv.Itoa(counter.FiscalCounterType))` — the
NUMERIC enum position — where the spec requires the counter-type name
uppercased (`SALEBYTAX`), and likewise the numeric money type where the
spec requires e.g. `CASH`. A SaleByTax USD 15% counter of value 100.00
contributes `0USD15.0010000`, not `SALEBYTAXUSD15.0010000`, and a
BalanceByMoneyType cash counter of value 50.00 contributes `6USD05000`,
not `BALANCEBYMONEYTYPEUSDCASH5000`; both the device-side and the
server-side fiscal-day encodings leak the numbers. -/
theorem fiscalDayHash_numeric_enum_leak :
    counterChunk saleByTaxSample = "0USD15.0010000"
    ∧ counterChunk cashBalanceSample = "6USD05000"
    ∧ fiscalCounterTypeNameUpper 0 = "SALEBYTAX"
    ∧ MoneyType.cash.toInt = 0
    ∧ ("0USD15.0010000" : String) ≠ "SALEBYTAX" ++ "USD" ++ "15.00" ++ "10000"
    ∧ ("6USD05000" : String) ≠ "BALANCEBYMONEYTYPE" ++ "USD" ++ "CASH" ++ "5000"
    ∧ encodeFiscalDay 1001 1 "2024-01-15" [saleByTaxSample]
      = "100112024-01-150USD15.0010000"
    ∧ encodeFiscalDayServer 1001 1 "2024-01-15" "2024-01-15T20:00:00" .manual
        [saleByTaxSample]
      = "100112024-01-152024-01-15T20:00:00MANUAL0USD15.0010000" := by
  refine ⟨by with_unfolding_all rfl, by with_unfolding_all rfl, by decide, by decide,
      by decide, by decide, by with_unfolding_all rfl, by with_unfolding_all rfl⟩

/-! ## Claim C10 — GetFiscalDayStatus on a never-closed day -/

/-- C10, evaluating the code at the failing input. For a device whose
current fiscal day is Opened and has never been closed, the stored
`reconciliationMode` is nil, and `GetFiscalDayStatus` dereferences it
unconditionally (`fiscalDay.ReconciliationMode.String()`), so the call
panics instead of returning the day's status — unlike the sibling
`DeviceService.GetStatus`, which guards the nil pointer. -/
theorem getFiscalDayStatus_nil_mode_panics :
    (fiscalDayGetCurrent baseState 1001 = some baseDay
        ∧ baseDay.status = .opened
        ∧ baseDay.reconciliationMode = none)
      ∧ GetFiscalDayStatus baseState 1001
          = .error (.nilDeref "fiscalDay.ReconciliationMode") := by
  exact ⟨⟨by with_unfolding_all rfl, by with_unfolding_all rfl, by with_unfolding_all rfl⟩,
    by with_unfolding_all rfl⟩

/-! ## Claim C8 — counter-continuity rules RCPT011 / RCPT012 -/

/-- The error message rule RCPT011 emits. -/
def msg011 : String := ruleMsg "RCPT011" "Receipt counter is not sequential"

/-- The error message rule RCPT012 emits. -/
def msg012 : String := ruleMsg "RCPT012" "Receipt global number is not sequential"

/-- A rule error is off the counter rules when its message is neither of
their messages. -/
def NotCounterMsg (e : RuleError) : Prop := e.msg ≠ msg011 ∧ e.msg ≠ msg012

theorem rcpt010_not_counter (r : Receipt) : ∀ e ∈ rcpt010Errs r, NotCounterMsg e := by
  intro e he
  unfold rcpt010Errs at he
  split at he
  · cases he
  · simp only [List.mem_singleton] at he
    subst he
    exact ⟨by decide, by decide⟩

theorem rcpt014_not_counter (r : Receipt) (d : ℤ) :
    ∀ e ∈ rcpt014Errs r d, NotCounterMsg e := by
  intro e he
  unfold rcpt014Errs at he
  split at he
  · simp only [List.mem_singleton] at he
    subst he
    exact ⟨by decide, by decide⟩
  · cases he

theorem rcpt015_not_counter (r : Receipt) : ∀ e ∈ rcpt015Errs r, NotCounterMsg e := by
  intro e he
  unfold rcpt015Errs at he
  split at he
  · simp only [List.mem_singleton] at he
    subst he
    exact ⟨by decide, by decide⟩
  · cases he

theorem rcpt016_not_counter (r : Receipt) : ∀ e ∈ rcpt016Errs r, NotCounterMsg e := by
  intro e he
  unfold rcpt016Errs at he
  split at he
  · simp only [List.mem_singleton] at he
    subst he
    exact ⟨by decide, by decide⟩
  · cases he

theorem rcpt017_not_counter (r : Receipt) : ∀ e ∈ rcpt017Errs r, NotCounterMsg e := by
  intro e he
  unfold rcpt017Errs at he
  split at he
  · simp only [List.mem_singleton] at he
    subst he
    exact ⟨by decide, by decide⟩
  · cases he

theorem rcpt018_not_counter (r : Receipt) : ∀ e ∈ rcpt018Errs r, NotCounterMsg e := by
  intro e he
  unfold rcpt018Errs at he
  split at he
  · simp only [List.mem_singleton] at he
    subst he
    exact ⟨by decide, by decide⟩
  · cases he

theorem totals_not_counter (r : Receipt) : ∀ e ∈ totalsErrs r, NotCounterMsg e := by
  intro e he
  unfold totalsErrs at he
  simp only [List.mem_append] at he
  rcases he with ((h | h) | h) | h <;>
    split at h <;> (try split at h) <;> (try split at h) <;>
    first
      | (rcases List.mem_singleton.mp h with rfl; exact ⟨by decide, by decide⟩)
      | exact absurd h (by simp)

theorem rcpt021_not_counter (r : Receipt) (tp : Taxpayer) :
    ∀ e ∈ rcpt021Errs r tp, NotCounterMsg e := by
  intro e he
  unfold rcpt021Errs at he
  split at he
  · simp only [List.mem_filterMap] at he
    obtain ⟨a, -, hfa⟩ := he
    split at hfa
    · split at hfa
      · cases hfa
        exact ⟨by decide, by decide⟩
      · cases hfa
    · cases hfa
  · cases he

theorem rcpt022_not_counter (r : Receipt) : ∀ e ∈ rcpt022Errs r, NotCounterMsg e := by
  intro e he
  unfold rcpt022Errs at he
  rw [Option.mem_toList] at he
  obtain ⟨a, -, hfa⟩ := List.exists_of_findSome?_eq_some he
  unfold rcpt022Line at hfa
  split at hfa
  · cases hfa
  · split at hfa
    · split at hfa
      · cases hfa
        exact ⟨by decide, by decide⟩
      · split at hfa
        · cases hfa
          exact ⟨by decide, by decide⟩
        · cases hfa
    · split at hfa
      · split at hfa
        · cases hfa
          exact ⟨by decide, by decide⟩
        · cases hfa
      · cases hfa

theorem rcpt023_not_counter (r : Receipt) : ∀ e ∈ rcpt023Errs r, NotCounterMsg e := by
  intro e he
  unfold rcpt023Errs at he
  split at he
  · simp only [List.mem_singleton] at he
    subst he
    exact ⟨by decide, by decide⟩
  · cases he

theorem rcpt024_not_counter (r : Receipt) : ∀ e ∈ rcpt024Errs r, NotCounterMsg e := by
  intro e he
  unfold rcpt024Errs at he
  split at he
  · simp only [List.mem_singleton] at he
    subst he
    exact ⟨by decide, by decide⟩
  · cases he

theorem rcpt025_not_counter (r : Receipt) (ts : List Tax) :
    ∀ e ∈ rcpt025Errs r ts, NotCounterMsg e := by
  intro e he
  unfold rcpt025Errs at he
  simp only [List.mem_filterMap] at he
  obtain ⟨a, -, hfa⟩ := he
  split at hfa
  · cases hfa
    exact ⟨by decide, by decide⟩
  · split at hfa
    · cases hfa
      exact ⟨by decide, by decide⟩
    · cases hfa

theorem rcpt026_not_counter (r : Receipt) : ∀ e ∈ rcpt026Errs r, NotCounterMsg e := by
  intro e he
  unfold rcpt026Errs at he
  split at he
  · simp only [List.mem_singleton] at he
    subst he
    exact ⟨by decide, by decide⟩
  · cases he

theorem rcpt027_not_counter (r : Receipt) : ∀ e ∈ rcpt027Errs r, NotCounterMsg e := by
  intro e he
  unfold rcpt027Errs at he
  split at he
  · simp only [List.mem_singleton] at he
    subst he
    exact ⟨by decide, by decide⟩
  · cases he

theorem rcpt028_not_counter (r : Receipt) : ∀ e ∈ rcpt028Errs r, NotCounterMsg e := by
  intro e he
  unfold rcpt028Errs at he
  rw [Option.mem_toList] at he
  obtain ⟨a, -, hfa⟩ := List.exists_of_findSome?_eq_some he
  unfold rcpt028Payment at hfa
  split at hfa
  · split at hfa
    · cases hfa
      exact ⟨by decide, by decide⟩
    · cases hfa
  · split at hfa
    · split at hfa
      · cases hfa
        exact ⟨by decide, by decide⟩
      · cases hfa
    · cases hfa

theorem rcpt030_not_counter (r : Receipt) (previous : Option Receipt) :
    ∀ e ∈ rcpt030Errs r previous, NotCounterMsg e := by
  intro e he
  unfold rcpt030Errs at he
  split at he
  · split at he
    · simp only [List.mem_singleton] at he
      subst he
      exact ⟨by decide, by decide⟩
    · cases he
  · cases he

theorem rcpt031_not_counter (r : Receipt) (now : ℤ) :
    ∀ e ∈ rcpt031Errs r now, NotCounterMsg e := by
  intro e he
  unfold rcpt031Errs at he
  split at he
  · simp only [List.mem_singleton] at he
    subst he
    exact ⟨by decide, by decide⟩
  · cases he

theorem rcpt041_not_counter (r : Receipt) (a b : ℤ) :
    ∀ e ∈ rcpt041Errs r a b, NotCounterMsg e := by
  intro e he
  unfold rcpt041Errs at he
  split at he
  · simp only [List.mem_singleton] at he
    subst he
    exact ⟨by decide, by decide⟩
  · cases he

theorem rcpt043_not_counter (r : Receipt) : ∀ e ∈ rcpt043Errs r, NotCounterMsg e := by
  intro e he
  unfold rcpt043Errs at he
  split at he
  · split at he
    · simp only [List.mem_singleton] at he
      subst he
      exact ⟨by decide, by decide⟩
    · cases he
  · cases he

theorem hs_not_counter (r : Receipt) (tp : Taxpayer) :
    ∀ e ∈ hsErrs r tp, NotCounterMsg e := by
  intro e he
  unfold hsErrs at he
  split at he
  · rw [Option.mem_toList] at he
    obtain ⟨a, -, hfa⟩ := List.exists_of_findSome?_eq_some he
    unfold hsLine at hfa
    dsimp only at hfa
    split at hfa
    · cases hfa
      exact ⟨by decide, by decide⟩
    · split at hfa
      · cases hfa
        exact ⟨by decide, by decide⟩
      · split at hfa
        · split at hfa
          · cases hfa
            exact ⟨by decide, by decide⟩
          · cases hfa
        · split at hfa
          · cases hfa
            exact ⟨by decide, by decide⟩
          · cases hfa
  · cases he

theorem rcpt011_msgs (r : Receipt) (previous : Option Receipt) :
    ∀ e ∈ rcpt011Errs r previous, e.msg = msg011 := by
  intro e he
  unfold rcpt011Errs at he
  split at he <;> split at he <;>
    first
      | (rcases List.mem_singleton.mp he with rfl; rfl)
      | exact absurd he (by simp)

theorem rcpt012_msgs (r : Receipt) (previous : Option Receipt) :
    ∀ e ∈ rcpt012Errs r previous, e.msg = msg012 := by
  intro e he
  unfold rcpt012Errs at he
  split at he <;> split at he <;>
    first
      | (rcases List.mem_singleton.mp he with rfl; rfl)
      | exact absurd he (by simp)

/-- When rule RCPT011 fires: with no previous receipt, on counter ≠ 1;
with one, on counter ≠ predecessor + 1. -/
theorem mem011_map (r : Receipt) (previous : Option Receipt) :
    msg011 ∈ (rcpt011Errs r previous).map (·.msg) ↔
      (match previous with
        | some p => r.receiptCounter ≠ p.receiptCounter + 1
        | none => r.receiptCounter ≠ 1) := by
  unfold rcpt011Errs
  cases previous
  · by_cases h : r.receiptCounter = 1 <;> simp [h, msg011]
  · rename_i p
    by_cases h : r.receiptCounter = p.receiptCounter + 1 <;> simp [h, msg011]

/-- When rule RCPT012 fires: with no previous receipt, on
globalNo ≠ 1 AND counter ≠ 1; with one, on globalNo ≠ predecessor + 1
AND globalNo ≠ 1. -/
theorem mem012_map (r : Receipt) (previous : Option Receipt) :
    msg012 ∈ (rcpt012Errs r previous).map (·.msg) ↔
      (match previous with
        | some p => r.receiptGlobalNo ≠ p.receiptGlobalNo + 1 ∧ r.receiptGlobalNo ≠ 1
        | none => r.receiptGlobalNo ≠ 1 ∧ r.receiptCounter ≠ 1) := by
  unfold rcpt012Errs
  cases previous
  · by_cases h1 : r.receiptGlobalNo = 1 <;> by_cases h2 : r.receiptCounter = 1 <;>
      simp [h1, h2, msg012]
  · rename_i p
    by_cases h1 : r.receiptGlobalNo = p.receiptGlobalNo + 1 <;>
      by_cases h2 : r.receiptGlobalNo = 1 <;> simp [h1, h2, msg012]

/-- RCPT012's message never shows up as RCPT011's. -/
theorem msg011_not_in_012 (r : Receipt) (previous : Option Receipt) :
    msg011 ∉ (rcpt012Errs r previous).map (·.msg) := by
  intro hm
  obtain ⟨e, he, hmsg⟩ := List.mem_map.mp hm
  have h2 := rcpt012_msgs r previous e he
  rw [h2] at hmsg
  exact absurd hmsg (by decide)

/-- RCPT011's message never shows up as RCPT012's. -/
theorem msg012_not_in_011 (r : Receipt) (previous : Option Receipt) :
    msg012 ∉ (rcpt011Errs r previous).map (·.msg) := by
  intro hm
  obtain ⟨e, he, hmsg⟩ := List.mem_map.mp hm
  have h2 := rcpt011_msgs r previous e he
  rw [h2] at hmsg
  exact absurd hmsg (by decide)

/-- Messages of a block with no counter-rule messages are not the
counter-rule messages. -/
theorem not_counter_map {l : List RuleError} (h : ∀ e ∈ l, NotCounterMsg e) :
    msg011 ∉ l.map (·.msg) ∧ msg012 ∉ l.map (·.msg) := by
  constructor <;>
    · intro hm
      obtain ⟨e, he, hmsg⟩ := List.mem_map.mp hm
      rcases h e he with ⟨h1, h2⟩
      first
        | exact h1 hmsg
        | exact h2 hmsg

/-- C8 as amended. Over the full validation engine: RCPT011 appears in the
validation errors exactly when the counter breaks continuity (counter ≠
predecessor + 1, or ≠ 1 with no predecessor); RCPT012 appears exactly when
the global number differs from predecessor + 1 AND from 1 (so a receipt
with global number 1 never triggers it), or — with no predecessor — when
the global number differs from 1 AND the counter also differs from 1 (a
first-counter receipt with a global-number gap produces no error at all).
The severities are Red against a predecessor and Grey without one. -/
theorem validateReceipt_counter_continuity (r : Receipt) (previous : Option Receipt)
    (tp : Taxpayer) (ts : List Tax) (dayOpened dayMaxHrs now : ℤ) :
    (msg011 ∈ (ValidateReceipt r previous tp ts dayOpened dayMaxHrs now).errors ↔
      (match previous with
        | some p => r.receiptCounter ≠ p.receiptCounter + 1
        | none => r.receiptCounter ≠ 1))
    ∧ (msg012 ∈ (ValidateReceipt r previous tp ts dayOpened dayMaxHrs now).errors ↔
      (match previous with
        | some p => r.receiptGlobalNo ≠ p.receiptGlobalNo + 1 ∧ r.receiptGlobalNo ≠ 1
        | none => r.receiptGlobalNo ≠ 1 ∧ r.receiptCounter ≠ 1))
    ∧ (previous = none →
        ∀ e ∈ rcpt011Errs r previous ++ rcpt012Errs r previous, e.color = .grey)
    ∧ (∀ p, previous = some p →
        ∀ e ∈ rcpt011Errs r previous ++ rcpt012Errs r previous, e.color = .red) := by
  have hE : (ValidateReceipt r previous tp ts dayOpened dayMaxHrs now).errors
      = (rcpt010Errs r).map (·.msg) ++ (rcpt011Errs r previous).map (·.msg)
        ++ (rcpt012Errs r previous).map (·.msg)
        ++ (rcpt014Errs r dayOpened).map (·.msg) ++ (rcpt015Errs r).map (·.msg)
        ++ (rcpt016Errs r).map (·.msg) ++ (rcpt017Errs r).map (·.msg)
        ++ (rcpt018Errs r).map (·.msg) ++ (totalsErrs r).map (·.msg)
        ++ (rcpt021Errs r tp).map (·.msg) ++ (rcpt022Errs r).map (·.msg)
        ++ (rcpt023Errs r).map (·.msg) ++ (rcpt024Errs r).map (·.msg)
        ++ (rcpt025Errs r ts).map (·.msg) ++ (rcpt026Errs r).map (·.msg)
        ++ (rcpt027Errs r).map (·.msg) ++ (rcpt028Errs r).map (·.msg)
        ++ (rcpt030Errs r previous).map (·.msg) ++ (rcpt031Errs r now).map (·.msg)
        ++ (rcpt041Errs r dayOpened dayMaxHrs).map (·.msg)
        ++ (rcpt043Errs r).map (·.msg) ++ (hsErrs r tp).map (·.msg) := by
    simp [ValidateReceipt, resultOf, List.map_append]
  refine ⟨?_, ?_, ?_, ?_⟩
  · constructor
    · intro h
      rw [hE] at h
      simp only [List.mem_append] at h
      have n01 := (not_counter_map (rcpt010_not_counter r)).1
      have n03 := msg011_not_in_012 r previous
      have n04 := (not_counter_map (rcpt014_not_counter r dayOpened)).1
      have n05 := (not_counter_map (rcpt015_not_counter r)).1
      have n06 := (not_counter_map (rcpt016_not_counter r)).1
      have n07 := (not_counter_map (rcpt017_not_counter r)).1
      have n08 := (not_counter_map (rcpt018_not_counter r)).1
      have n09 := (not_counter_map (totals_not_counter r)).1
      have n10 := (not_counter_map (rcpt021_not_counter r tp)).1
      have n11 := (not_counter_map (rcpt022_not_counter r)).1
      have n12 := (not_counter_map (rcpt023_not_counter r)).1
      have n13 := (not_counter_map (rcpt024_not_counter r)).1
      have n14 := (not_counter_map (rcpt025_not_counter r ts)).1
      have n15 := (not_counter_map (rcpt026_not_counter r)).1
      have n16 := (not_counter_map (rcpt027_not_counter r)).1
      have n17 := (not_counter_map (rcpt028_not_counter r)).1
      have n18 := (not_counter_map (rcpt030_not_counter r previous)).1
      have n19 := (not_counter_map (rcpt031_not_counter r now)).1
      have n20 := (not_counter_map (rcpt041_not_counter r dayOpened dayMaxHrs)).1
      have n21 := (not_counter_map (rcpt043_not_counter r)).1
      have n22 := (not_counter_map (hs_not_counter r tp)).1
      rcases h with (((((((((((((((((((((h|h)|h)|h)|h)|h)|h)|h)|h)|h)|h)|h)|h)|h)|h)|h)|h)|h)|h)|h)|h)|h)
      all_goals first
        | exact (mem011_map r previous).mp h
        | exact absurd h n01
        | exact absurd h n03
        | exact absurd h n04
        | exact absurd h n05
        | exact absurd h n06
        | exact absurd h n07
        | exact absurd h n08
        | exact absurd h n09
        | exact absurd h n10
        | exact absurd h n11
        | exact absurd h n12
        | exact absurd h n13
        | exact absurd h n14
        | exact absurd h n15
        | exact absurd h n16
        | exact absurd h n17
        | exact absurd h n18
        | exact absurd h n19
        | exact absurd h n20
        | exact absurd h n21
        | exact absurd h n22
    · intro hc
      have hmem := (mem011_map r previous).mpr hc
      rw [hE]
      simp only [List.mem_append]
      exact Or.inl (Or.inl (Or.inl (Or.inl (Or.inl (Or.inl (Or.inl (Or.inl (Or.inl (Or.inl (Or.inl (Or.inl (Or.inl (Or.inl (Or.inl (Or.inl (Or.inl (Or.inl (Or.inl (Or.inl (Or.inr hmem))))))))))))))))))))
  · constructor
    · intro h
      rw [hE] at h
      simp only [List.mem_append] at h
      have n01 := (not_counter_map (rcpt010_not_counter r)).2
      have n02 := msg012_not_in_011 r previous
      have n04 := (not_counter_map (rcpt014_not_counter r dayOpened)).2
      have n05 := (not_counter_map (rcpt015_not_counter r)).2
      have n06 := (not_counter_map (rcpt016_not_counter r)).2
      have n07 := (not_counter_map (rcpt017_not_counter r)).2
      have n08 := (not_counter_map (rcpt018_not_counter r)).2
      have n09 := (not_counter_map (totals_not_counter r)).2
      have n10 := (not_counter_map (rcpt021_not_counter r tp)).2
      have n11 := (not_counter_map (rcpt022_not_counter r)).2
      have n12 := (not_counter_map (rcpt023_not_counter r)).2
      have n13 := (not_counter_map (rcpt024_not_counter r)).2
      have n14 := (not_counter_map (rcpt025_not_counter r ts)).2
      have n15 := (not_counter_map (rcpt026_not_counter r)).2
      have n16 := (not_counter_map (rcpt027_not_counter r)).2
      have n17 := (not_counter_map (rcpt028_not_counter r)).2
      have n18 := (not_counter_map (rcpt030_not_counter r previous)).2
      have n19 := (not_counter_map (rcpt031_not_counter r now)).2
      have n20 := (not_counter_map (rcpt041_not_counter r dayOpened dayMaxHrs)).2
      have n21 := (not_counter_map (rcpt043_not_counter r)).2
      have n22 := (not_counter_map (hs_not_counter r tp)).2
      rcases h with (((((((((((((((((((((h|h)|h)|h)|h)|h)|h)|h)|h)|h)|h)|h)|h)|h)|h)|h)|h)|h)|h)|h)|h)|h)
      all_goals first
        | exact (mem012_map r previous).mp h
        | exact absurd h n01
        | exact absurd h n02
        | exact absurd h n04
        | exact absurd h n05
        | exact absurd h n06
        | exact absurd h n07
        | exact absurd h n08
        | exact absurd h n09
        | exact absurd h n10
        | exact absurd h n11
        | exact absurd h n12
        | exact absurd h n13
        | exact absurd h n14
        | exact absurd h n15
        | exact absurd h n16
        | exact absurd h n17
        | exact absurd h n18
        | exact absurd h n19
        | exact absurd h n20
        | exact absurd h n21
        | exact absurd h n22
    · intro hc
      have hmem := (mem012_map r previous).mpr hc
      rw [hE]
      simp only [List.mem_append]
      exact Or.inl (Or.inl (Or.inl (Or.inl (Or.inl (Or.inl (Or.inl (Or.inl (Or.inl (Or.inl (Or.inl (Or.inl (Or.inl (Or.inl (Or.inl (Or.inl (Or.inl (Or.inl (Or.inl (Or.inr hmem)))))))))))))))))))
  · rintro rfl e he
    rcases List.mem_append.mp he with h | h
    · unfold rcpt011Errs at h
      split at h <;> split at h <;>
        first
          | (rcases List.mem_singleton.mp h with rfl; rfl)
          | exact absurd h (List.not_mem_nil _)
          | simp_all
    · unfold rcpt012Errs at h
      split at h <;> split at h <;>
        first
          | (rcases List.mem_singleton.mp h with rfl; rfl)
          | exact absurd h (List.not_mem_nil _)
          | simp_all
  · rintro p rfl e he
    rcases List.mem_append.mp he with h | h
    · unfold rcpt011Errs at h
      split at h <;> split at h <;>
        first
          | (rcases List.mem_singleton.mp h with rfl; rfl)
          | exact absurd h (List.not_mem_nil _)
          | simp_all
    · unfold rcpt012Errs at h
      split at h <;> split at h <;>
        first
          | (rcases List.mem_singleton.mp h with rfl; rfl)
          | exact absurd h (List.not_mem_nil _)
          | simp_all

/-- An otherwise clean receipt whose global number jumps to 7 while its
counter is 1 and no previous receipt exists. -/
def gapReceipt : Receipt := { baseReceipt with receiptGlobalNo := 7 }

/-- C8 counterexample. The claim states that with no previous receipt, a
receiptCounter ≠ 1 OR receiptGlobalNo ≠ 1 produces a Grey-severity error,
and that against a predecessor RCPT012 fires exactly when receiptGlobalNo
differs from predecessor + 1. Both parts fail on the code: a first-counter
receipt with global number 7 and no predecessor validates completely clean
(no error, no color), and a receipt with global number 1 after
predecessor 5 does not trigger RCPT012 (the rule also demands
globalNo ≠ 1). -/
theorem counter_rules_claim_counterexample :
    ValidateReceipt gapReceipt none baseTaxpayer [baseTax] 1705305600 24 1705314600
      = { isValid := true, color := none, errors := [] }
    ∧ rcpt012Errs
        { baseReceipt with receiptGlobalNo := 1, receiptCounter := 6 }
        (some { baseReceipt with receiptGlobalNo := 5, receiptCounter := 5 })
      = [] := by
  exact ⟨by with_unfolding_all rfl, by with_unfolding_all rfl⟩

/-- Witness for the C8 theorem at a concrete no-predecessor receipt with
counter 2 and global number 9. -/
theorem validateReceipt_counter_continuity_witness :
    (msg011 ∈ (ValidateReceipt { baseReceipt with receiptCounter := 2, receiptGlobalNo := 9 }
        none baseTaxpayer [baseTax] 1705305600 24 1705314600).errors ↔
      ({ baseReceipt with receiptCounter := 2, receiptGlobalNo := 9 } : Receipt).receiptCounter ≠ 1)
    ∧ (∀ e ∈ rcpt011Errs { baseReceipt with receiptCounter := 2, receiptGlobalNo := 9 } none
          ++ rcpt012Errs { baseReceipt with receiptCounter := 2, receiptGlobalNo := 9 } none,
        e.color = .grey) := by
  have T := validateReceipt_counter_continuity
    { baseReceipt with receiptCounter := 2, receiptGlobalNo := 9 }
    none baseTaxpayer [baseTax] 1705305600 24 1705314600
  exact ⟨T.1, T.2.2.1 rfl⟩

/-! ## Claim C2 — duplicate submission handling -/

/-- C2 as amended: whenever a receipt with the submitted
(deviceID, receiptGlobalNo) is already stored (and carries server data),
`SubmitReceipt` returns the previously stored serverSignature, serverDate
and serverReceiptID and changes nothing but the operation-ID counter — no
hash comparison is performed, no RCPT04 is ever produced, and no row is
inserted, whether or not the stored hash matches the submitted payload. -/
theorem submitReceipt_duplicate_returns_stored (f : List Nat → List Nat)
    (s : ServerState) (req : SubmitReceiptRequest) (device : Device)
    (day : FiscalDay) (ex : Receipt) (d : ℤ) (sig : SignatureDataEx)
    (hdev : getByDeviceID s req.deviceID = some device)
    (hmode : device.operatingMode ≠ .offline)
    (hday : fiscalDayGetCurrent s req.deviceID = some day)
    (hstatus : day.status = .opened ∨ day.status = .closeFailed)
    (hex : getByGlobalNo s req.deviceID req.receipt.receiptGlobalNo = some ex)
    (hdate : ex.serverDate = some d)
    (hsig : ex.receiptServerSignature = some sig) :
    SubmitReceipt f s req = .ok
      ({ operationID := generateOperationID s.opCounter
         receiptID := ex.receiptID
         serverDate := d
         receiptServerSignature := sig },
       { s with opCounter := s.opCounter + 1 }) := by
  unfold SubmitReceipt
  rw [hdev]
  dsimp only
  rw [if_neg hmode]
  rw [hday]
  dsimp only
  rw [if_neg (by rcases hstatus with h | h <;> simp [h])]
  have hex2 : getByGlobalNo s req.deviceID
      ({ req.receipt with fiscalDayID := day.id } : Receipt).receiptGlobalNo = some ex := hex
  rw [hex2]
  dsimp only
  rw [hdate, hsig]

/-- The receipt row stored by the first sample submission: global number
1 for device 1001, with a 3-byte stored hash that cannot match any
freshly computed SHA-256. -/
def storedReceipt : Receipt :=
  { baseReceipt with
      fiscalDayID := 10
      id := 100
      receiptID := 100
      receiptHash := [9, 9, 9]
      serverDate := some 1705310000
      receiptServerSignature := some
        { hash := [9, 9, 9], signature := [7],
          certificateThumbprint := List.replicate 20 0 } }

/-- The sample state with the stored receipt present. -/
def dupState : ServerState := { baseState with receipts := [storedReceipt] }

/-- A resubmission of global number 1 with a DIFFERENT payload (total
555 instead of 100). -/
def mismatchedReq : SubmitReceiptRequest :=
  { deviceID := 1001
    receipt := { baseReceipt with
      receiptTotal := 555
      receiptPayments := [{ moneyTypeCode := .cash, paymentAmount := 555 }] } }

/-- C2 counterexample. The claim requires that a duplicate
(deviceID, receiptGlobalNo) whose freshly computed hash differs from the
stored receiptHash be rejected with RCPT04. On the code, the fresh hash
of the mismatched payload differs from the stored hash, yet the call
succeeds and returns the stored serverSignature, serverDate and
serverReceiptID — the dedup branch never computes or compares a hash and
RCPT04 is unreachable in `SubmitReceipt`. -/
theorem duplicate_mismatch_claim_counterexample :
    GenerateReceiptHash { mismatchedReq.receipt with fiscalDayID := 10 } []
        ≠ storedReceipt.receiptHash
    ∧ SubmitReceipt (fun _ => []) dupState mismatchedReq
      = .ok ({ operationID := generateOperationID 0
               receiptID := 100
               serverDate := 1705310000
               receiptServerSignature :=
                 { hash := [9, 9, 9], signature := [7],
                   certificateThumbprint := List.replicate 20 0 } },
             { dupState with opCounter := 1 }) := by
  refine ⟨?_, by with_unfolding_all rfl⟩
  set_option maxRecDepth 20000 in with_unfolding_all decide

/-- Witness for the C2 theorem at the concrete duplicate state. -/
theorem submitReceipt_duplicate_returns_stored_witness :
    SubmitReceipt (fun _ => []) dupState mismatchedReq = .ok
      ({ operationID := generateOperationID dupState.opCounter
         receiptID := storedReceipt.receiptID
         serverDate := 1705310000
         receiptServerSignature :=
           { hash := [9, 9, 9], signature := [7],
             certificateThumbprint := List.replicate 20 0 } },
       { dupState with opCounter := dupState.opCounter + 1 }) :=
  submitReceipt_duplicate_returns_stored (fun _ => []) dupState mismatchedReq
    baseDevice baseDay storedReceipt 1705310000
    { hash := [9, 9, 9], signature := [7], certificateThumbprint := List.replicate 20 0 }
    (by with_unfolding_all rfl) (by with_unfolding_all decide)
    (by with_unfolding_all rfl) (Or.inl (by with_unfolding_all rfl))
    (by with_unfolding_all rfl) (by with_unfolding_all rfl) (by with_unfolding_all rfl)

/-! ## Properties of the `ORDER BY ... DESC LIMIT 1` folds -/

theorem pickStep_none (f : α → ℤ) (x : α) : pickStep f none x = some x := rfl

theorem pickStep_lt (f : α → ℤ) {m x : α} (h : f m < f x) :
    pickStep f (some m) x = some x := by
  simp only [pickStep]
  rw [if_pos h]

theorem pickStep_ge (f : α → ℤ) {m x : α} (h : ¬ f m < f x) :
    pickStep f (some m) x = some m := by
  simp only [pickStep]
  rw [if_neg h]

theorem foldPick_spec (f : α → ℤ) :
    ∀ (l : List α) (acc : Option α),
      (∀ d, l.foldl (pickStep f) acc = some d →
        (d ∈ l ∨ acc = some d) ∧ (∀ x ∈ l, f x ≤ f d)
          ∧ (∀ a0, acc = some a0 → f a0 ≤ f d))
      ∧ (l.foldl (pickStep f) acc = none → acc = none ∧ l = []) := by
  intro l
  induction l with
  | nil =>
      intro acc
      constructor
      · intro d h
        simp only [List.foldl_nil] at h
        refine ⟨Or.inr h, by simp, ?_⟩
        intro a0 ha
        rw [ha] at h
        cases h
        exact le_refl _
      · intro h
        simp only [List.foldl_nil] at h
        exact ⟨h, rfl⟩
  | cons x xs ih =>
      intro acc
      constructor
      · intro d h
        simp only [List.foldl_cons] at h
        obtain ⟨hmem, hall, hacc⟩ := (ih (pickStep f acc x)).1 d h
        have goal3 : ∀ a0, acc = some a0 → f a0 ≤ f d := by
          intro a0 ha0
          subst ha0
          by_cases hlt : f a0 < f x
          · have hx : f x ≤ f d := hacc x (pickStep_lt f hlt)
            exact le_of_lt (lt_of_lt_of_le hlt hx)
          · exact hacc a0 (pickStep_ge f hlt)
        have goalx : f x ≤ f d := by
          cases acc with
          | none => exact hacc x (pickStep_none f x)
          | some m =>
              by_cases hlt : f m < f x
              · exact hacc x (pickStep_lt f hlt)
              · exact le_trans (not_lt.mp hlt) (hacc m (pickStep_ge f hlt))
        refine ⟨?_, ?_, goal3⟩
        · rcases hmem with hm | hm
          · exact Or.inl (List.mem_cons_of_mem x hm)
          · cases acc with
            | none =>
                rw [pickStep_none f x] at hm
                cases hm
                exact Or.inl (List.mem_cons_self x xs)
            | some m =>
                by_cases hlt : f m < f x
                · rw [pickStep_lt f hlt] at hm
                  cases hm
                  exact Or.inl (List.mem_cons_self x xs)
                · rw [pickStep_ge f hlt] at hm
                  cases hm
                  exact Or.inr rfl
        · intro y hy
          rcases List.mem_cons.mp hy with rfl | hy2
          · exact goalx
          · exact hall y hy2
      · intro h
        simp only [List.foldl_cons] at h
        obtain ⟨h1, -⟩ := (ih (pickStep f acc x)).2 h
        cases acc with
        | none => cases (pickStep_none f x ▸ h1)
        | some m =>
            by_cases hlt : f m < f x
            · cases (pickStep_lt f hlt ▸ h1)
            · cases (pickStep_ge f hlt ▸ h1)

/-- A current fiscal day is a day of the device with the greatest dayNo. -/
theorem fiscalDayGetCurrent_some {s : ServerState} {dev : ℤ} {day : FiscalDay}
    (h : fiscalDayGetCurrent s dev = some day) :
    day ∈ s.fiscalDays ∧ day.deviceID = dev
      ∧ ∀ d2 ∈ s.fiscalDays, d2.deviceID = dev → d2.fiscalDayNo ≤ day.fiscalDayNo := by
  unfold fiscalDayGetCurrent at h
  have H := (foldPick_spec (fun d : FiscalDay => d.fiscalDayNo)
    (s.fiscalDays.filter (fun d => d.deviceID == dev)) none).1 day h
  obtain ⟨hmem, hmax, -⟩ := H
  rcases hmem with hm | hm
  · have h2 := List.mem_filter.mp hm
    refine ⟨h2.1, by simpa using h2.2, ?_⟩
    intro d2 hd2 hdev2
    exact hmax d2 (List.mem_filter.mpr ⟨hd2, by simpa using hdev2⟩)
  · cases hm

/-- With no current fiscal day, the device has no fiscal days at all. -/
theorem fiscalDayGetCurrent_none {s : ServerState} {dev : ℤ}
    (h : fiscalDayGetCurrent s dev = none) :
    ∀ d ∈ s.fiscalDays, d.deviceID ≠ dev := by
  unfold fiscalDayGetCurrent at h
  have H := (foldPick_spec (fun d : FiscalDay => d.fiscalDayNo)
    (s.fiscalDays.filter (fun d => d.deviceID == dev)) none).2 h
  intro d hd hdev
  have : d ∈ s.fiscalDays.filter (fun d => d.deviceID == dev) :=
    List.mem_filter.mpr ⟨hd, by simpa using hdev⟩
  rw [H.2] at this
  cases this

/-- A previous receipt returned by the chain lookup is a stored receipt of
the same device and fiscal day, with the greatest global number among
those below the submitted one. -/
theorem getPreviousReceipt_some {s : ServerState} {dev fid g : ℤ} {p : Receipt}
    (h : getPreviousReceipt s dev fid g = some p) :
    p ∈ s.receipts ∧ p.deviceID = dev ∧ p.fiscalDayID = fid ∧ p.receiptGlobalNo < g
      ∧ ∀ r ∈ s.receipts, r.deviceID = dev → r.fiscalDayID = fid →
          r.receiptGlobalNo < g → r.receiptGlobalNo ≤ p.receiptGlobalNo := by
  unfold getPreviousReceipt at h
  have H := (foldPick_spec (fun r : Receipt => r.receiptGlobalNo)
    (s.receipts.filter (fun r =>
      r.deviceID == dev && r.fiscalDayID == fid && decide (r.receiptGlobalNo < g))) none).1 p h
  obtain ⟨hmem, hmax, -⟩ := H
  rcases hmem with hm | hm
  · have h2 := List.mem_filter.mp hm
    have h3 := h2.2
    simp only [Bool.and_eq_true, beq_iff_eq, decide_eq_true_eq] at h3
    refine ⟨h2.1, h3.1.1, h3.1.2, h3.2, ?_⟩
    intro r hr hrdev hrfid hrg
    exact hmax r (List.mem_filter.mpr ⟨hr, by
      simp only [Bool.and_eq_true, beq_iff_eq, decide_eq_true_eq]
      exact ⟨⟨hrdev, hrfid⟩, hrg⟩⟩)
  · cases hm

/-- With no previous receipt found, no stored receipt of the device and
day has a smaller global number. -/
theorem getPreviousReceipt_none {s : ServerState} {dev fid g : ℤ}
    (h : getPreviousReceipt s dev fid g = none) :
    ∀ r ∈ s.receipts, r.deviceID = dev → r.fiscalDayID = fid →
      ¬ r.receiptGlobalNo < g := by
  unfold getPreviousReceipt at h
  have H := (foldPick_spec (fun r : Receipt => r.receiptGlobalNo)
    (s.receipts.filter (fun r =>
      r.deviceID == dev && r.fiscalDayID == fid && decide (r.receiptGlobalNo < g))) none).2 h
  intro r hr hrdev hrfid hrg
  have : r ∈ s.receipts.filter (fun r =>
      r.deviceID == dev && r.fiscalDayID == fid && decide (r.receiptGlobalNo < g)) :=
    List.mem_filter.mpr ⟨hr, by
      simp only [Bool.and_eq_true, beq_iff_eq, decide_eq_true_eq]
      exact ⟨⟨hrdev, hrfid⟩, hrg⟩⟩
  rw [H.2] at this
  cases this

/-! ## Claim C6 — OpenFiscalDay and the at-most-one-open-day invariant -/

/-- Any non-Closed fiscal day of the device has the greatest dayNo among
the device's days (the reachable-state shape that lets the
latest-day check of the source stand in for "no non-Closed day"). -/
def OpenDayIsLatest (s : ServerState) (dev : ℤ) : Prop :=
  ∀ d ∈ s.fiscalDays, d.deviceID = dev → d.status ≠ .closed →
    ∀ d2 ∈ s.fiscalDays, d2.deviceID = dev → d2.fiscalDayNo ≤ d.fiscalDayNo

/-- Day numbers are unique per device (the schema's unique constraint on
(device_id, fiscal_day_no)). -/
def DistinctDayNos (s : ServerState) (dev : ℤ) : Prop :=
  ∀ d ∈ s.fiscalDays, ∀ d2 ∈ s.fiscalDays, d.deviceID = dev → d2.deviceID = dev →
    d.fiscalDayNo = d2.fiscalDayNo → d = d2

/-- At most one fiscal day of the device is in a non-Closed status. -/
def AtMostOneNonClosed (s : ServerState) (dev : ℤ) : Prop :=
  ∀ d ∈ s.fiscalDays, ∀ d2 ∈ s.fiscalDays, d.deviceID = dev → d2.deviceID = dev →
    d.status ≠ .closed → d2.status ≠ .closed → d = d2

/-- C6: on a reachable state (non-Closed days are latest, day numbers are
unique per device), `OpenFiscalDay` succeeds exactly when the device is
Online and NO fiscal day of the device is non-Closed (Opened,
CloseInitiated and CloseFailed all block); on success the response's
dayNo is the last dayNo + 1 (1 with no prior day), the new day is
persisted Opened with openedAt = now, and afterwards the device again has
every non-Closed day latest — in particular at most one non-Closed day. -/
theorem openFiscalDay_spec (s : ServerState) (req : OpenFiscalDayRequest)
    (device : Device)
    (hdev : getByDeviceID s req.deviceID = some device)
    (hinv : OpenDayIsLatest s req.deviceID)
    (hno : DistinctDayNos s req.deviceID) :
    ((∃ resp s2, OpenFiscalDay s req = .ok (resp, s2)) ↔
      (device.operatingMode = .online
        ∧ ∀ d ∈ s.fiscalDays, d.deviceID = req.deviceID → d.status = .closed))
    ∧ (∀ resp s2, OpenFiscalDay s req = .ok (resp, s2) →
        resp.fiscalDayNo = (match fiscalDayGetCurrent s req.deviceID with
          | some cur => cur.fiscalDayNo + 1
          | none => 1)
        ∧ ∃ newDay, s2.fiscalDays = s.fiscalDays ++ [newDay]
            ∧ newDay.deviceID = req.deviceID ∧ newDay.status = .opened
            ∧ newDay.fiscalDayOpened = s.now ∧ newDay.fiscalDayNo = resp.fiscalDayNo
            ∧ OpenDayIsLatest s2 req.deviceID ∧ AtMostOneNonClosed s2 req.deviceID) := by
  have allClosed : ∀ cur, fiscalDayGetCurrent s req.deviceID = some cur →
      cur.status = .closed → ∀ d ∈ s.fiscalDays, d.deviceID = req.deviceID →
        d.status = .closed := by
    intro cur hcur hclosed d hd hddev
    by_contra hopen
    obtain ⟨hcm, hcdev, hcmax⟩ := fiscalDayGetCurrent_some hcur
    have h1 : cur.fiscalDayNo ≤ d.fiscalDayNo := hinv d hd hddev hopen cur hcm hcdev
    have h2 : d.fiscalDayNo ≤ cur.fiscalDayNo := hcmax d hd hddev
    have : d = cur := hno d hd cur hcm hddev hcdev (le_antisymm h2 h1)
    rw [this] at hopen
    exact hopen hclosed
  have newInv : ∀ (newDay : FiscalDay), newDay.deviceID = req.deviceID →
      newDay.status = .opened →
      (∀ d ∈ s.fiscalDays, d.deviceID = req.deviceID → d.status = .closed) →
      (∀ d ∈ s.fiscalDays, d.deviceID = req.deviceID →
        d.fiscalDayNo ≤ newDay.fiscalDayNo) →
      OpenDayIsLatest { s with
          fiscalDays := s.fiscalDays ++ [newDay]
          nextFiscalDayID := s.nextFiscalDayID + 1
          opCounter := s.opCounter + 1 } req.deviceID
      ∧ AtMostOneNonClosed { s with
          fiscalDays := s.fiscalDays ++ [newDay]
          nextFiscalDayID := s.nextFiscalDayID + 1
          opCounter := s.opCounter + 1 } req.deviceID := by
    intro newDay hndev hnopen hclosed hmax
    constructor
    · intro d hd hddev hdopen d2 hd2 hd2dev
      rcases List.mem_append.mp hd with hdo | hdn
      · exact absurd (hclosed d hdo hddev) (by
          intro hc
          rw [hc] at hdopen
          exact hdopen rfl)
      · rcases List.mem_singleton.mp hdn with rfl
        rcases List.mem_append.mp hd2 with hd2o | hd2n
        · exact hmax d2 hd2o hd2dev
        · rcases List.mem_singleton.mp hd2n with rfl
          exact le_refl _
    · intro d hd d2 hd2 hddev hd2dev hdopen hd2open
      rcases List.mem_append.mp hd with hdo | hdn
      · exact absurd (hclosed d hdo hddev) (by
          intro hc
          rw [hc] at hdopen
          exact hdopen rfl)
      · rcases List.mem_append.mp hd2 with hd2o | hd2n
        · exact absurd (hclosed d2 hd2o hd2dev) (by
            intro hc
            rw [hc] at hd2open
            exact hd2open rfl)
        · rcases List.mem_singleton.mp hdn with rfl
          rcases List.mem_singleton.mp hd2n with rfl
          rfl
  unfold OpenFiscalDay
  rw [hdev]
  dsimp only
  by_cases hoff : device.operatingMode = .offline
  · rw [if_pos hoff]
    constructor
    · constructor
      · rintro ⟨resp, s2, hok⟩
        cases hok
      · rintro ⟨honline, -⟩
        rw [honline] at hoff
        cases hoff
    · intro resp s2 hok
      cases hok
  · rw [if_neg hoff]
    have honline : device.operatingMode = .online := by
      cases hm : device.operatingMode
      · rfl
      · exact absurd hm hoff
    cases hcur : fiscalDayGetCurrent s req.deviceID with
    | none =>
        dsimp only [Option.any]
        have hnodays := fiscalDayGetCurrent_none hcur
        constructor
        · constructor
          · intro _
            exact ⟨honline, fun d hd hddev => absurd hddev (hnodays d hd)⟩
          · intro _
            exact ⟨_, _, rfl⟩
        · intro resp s2 hok
          cases hok
          refine ⟨rfl, _, rfl, rfl, rfl, rfl, rfl, ?_⟩
          exact newInv _ rfl rfl
            (fun d hd hddev => absurd hddev (hnodays d hd))
            (fun d hd hddev => absurd hddev (hnodays d hd))
    | some cur =>
        dsimp only [Option.any]
        obtain ⟨hcm, hcdev, hcmax⟩ := fiscalDayGetCurrent_some hcur
        by_cases hop : cur.status = .opened
        · rw [if_pos (by simp [hop])]
          constructor
          · constructor
            · rintro ⟨resp, s2, hok⟩
              cases hok
            · rintro ⟨-, hall⟩
              have := hall cur hcm hcdev
              rw [this] at hop
              cases hop
          · intro resp s2 hok
            cases hok
        · rw [if_neg (by simp [hop])]
          by_cases hcl : cur.status = .closed
          · rw [if_neg (by simp [hcl])]
            have hallc := allClosed cur hcur hcl
            constructor
            · constructor
              · intro _
                exact ⟨honline, hallc⟩
              · intro _
                exact ⟨_, _, rfl⟩
            · intro resp s2 hok
              cases hok
              refine ⟨rfl, _, rfl, rfl, rfl, rfl, rfl, ?_⟩
              refine newInv _ rfl rfl hallc ?_
              intro d hd hddev
              exact le_trans (hcmax d hd hddev) (by dsimp only; omega)
          · rw [if_pos (by simp [hcl])]
            constructor
            · constructor
              · rintro ⟨resp, s2, hok⟩
                cases hok
              · rintro ⟨-, hall⟩
                exact absurd (hall cur hcm hcdev) hcl
            · intro resp s2 hok
              cases hok

/-- The sample state with the device's only fiscal day Closed. -/
def closedDayState : ServerState :=
  { baseState with
      fiscalDays := [{ baseDay with
        status := .closed
        reconciliationMode := some .auto
        fiscalDayClosed := some 1705310000 }] }

/-- Witness for the C6 theorem: with the only day Closed and the device
Online, opening succeeds. -/
theorem openFiscalDay_spec_witness :
    ∃ resp s2, OpenFiscalDay closedDayState { deviceID := 1001 } = .ok (resp, s2) :=
  (openFiscalDay_spec closedDayState { deviceID := 1001 } baseDevice
      (by with_unfolding_all rfl)
      (by
        intro d hd _ hne
        rw [List.mem_singleton.mp hd] at hne
        exact absurd rfl hne)
      (by
        intro d hd d2 hd2 _ _ _
        rw [List.mem_singleton.mp hd, List.mem_singleton.mp hd2])).1.mpr
    ⟨by with_unfolding_all rfl, by
      intro d hd _
      rw [List.mem_singleton.mp hd]⟩

/-! ## Claim C3 — the Red/Grey blocking guard of CloseFiscalDay -/

/-- The `hasBlockingErrors` loop of `CloseFiscalDay` holds exactly when
some stored receipt of the day has color Red or Grey. -/
theorem hasBlocking_iff (s : ServerState) (fid : ℤ) :
    ((getReceiptsWithValidationErrors s fid).any (fun r =>
        r.validationColor == some .red || r.validationColor == some .grey) = true)
      ↔ ∃ r ∈ s.receipts, r.fiscalDayID = fid
          ∧ (r.validationColor = some .red ∨ r.validationColor = some .grey) := by
  unfold getReceiptsWithValidationErrors
  rw [List.any_eq_true]
  constructor
  · rintro ⟨r, hr, hcolor⟩
    have h2 := List.mem_filter.mp hr
    have h3 := h2.2
    simp only [Bool.and_eq_true, Bool.or_eq_true, beq_iff_eq] at h3 hcolor
    exact ⟨r, h2.1, h3.1, hcolor⟩
  · rintro ⟨r, hr, hfid, hcol⟩
    refine ⟨r, List.mem_filter.mpr ⟨hr, ?_⟩, ?_⟩
    · simp only [Bool.and_eq_true, Bool.or_eq_true, beq_iff_eq]
      exact ⟨hfid, hcol⟩
    · simp only [Bool.or_eq_true, beq_iff_eq]
      exact hcol

/-- C3: for an otherwise admissible close call — device found and Online,
current day in Opened or CloseFailed, and the reconciliation data
acceptable (submitted counters valid in Manual mode; a device signature
present in Auto mode) — the call fails with the FISC04 blocking error
exactly when some receipt of the day has stored color Red or Grey, and
with any such receipt the call never returns success, so the day cannot
transition to Closed. -/
theorem closeFiscalDay_blocking_guard (f : List Nat → List Nat)
    (s : ServerState) (req : CloseFiscalDayRequest) (device : Device)
    (day : FiscalDay)
    (hdev : getByDeviceID s req.deviceID = some device)
    (hmode : device.operatingMode ≠ .offline)
    (hday : fiscalDayGetCurrent s req.deviceID = some day)
    (hstatus : day.status = .opened ∨ day.status = .closeFailed)
    (hmanual : req.fiscalDayCounters ≠ [] →
      ValidateCounters s day.id req.fiscalDayCounters = true)
    (hauto : req.fiscalDayCounters = [] → req.fiscalDayDeviceSignature ≠ none) :
    (CloseFiscalDay f s req
        = .error (.api 422 "Fiscal day has receipts with validation errors" "FISC04")
      ↔ ∃ r ∈ s.receipts, r.fiscalDayID = day.id
          ∧ (r.validationColor = some .red ∨ r.validationColor = some .grey))
    ∧ ((∃ r ∈ s.receipts, r.fiscalDayID = day.id
          ∧ (r.validationColor = some .red ∨ r.validationColor = some .grey)) →
        ∀ resp s2, CloseFiscalDay f s req ≠ .ok (resp, s2))
    ∧ ((¬ ∃ r ∈ s.receipts, r.fiscalDayID = day.id
          ∧ (r.validationColor = some .red ∨ r.validationColor = some .grey)) →
        ∃ resp s2, CloseFiscalDay f s req = .ok (resp, s2)) := by
  unfold CloseFiscalDay
  rw [hdev]
  dsimp only
  rw [if_neg hmode]
  rw [hday]
  dsimp only
  rw [if_neg (by rcases hstatus with h | h <;> simp [h])]
  by_cases hB : (getReceiptsWithValidationErrors s day.id).any (fun r =>
      r.validationColor == some ValidationColor.red
        || r.validationColor == some ValidationColor.grey) = true
  · rw [if_pos hB]
    refine ⟨⟨fun _ => (hasBlocking_iff s day.id).mp hB, fun _ => rfl⟩, ?_, ?_⟩
    · intro _ resp s2 hok
      cases hok
    · intro hnb
      exact absurd ((hasBlocking_iff s day.id).mp hB) hnb
  · rw [if_neg hB]
    have hnotex : ¬ ∃ r ∈ s.receipts, r.fiscalDayID = day.id
        ∧ (r.validationColor = some .red ∨ r.validationColor = some .grey) :=
      fun hex => hB ((hasBlocking_iff s day.id).mpr hex)
    by_cases hm : 0 < req.fiscalDayCounters.length
    · rw [if_pos hm, if_pos rfl,
        if_pos (hmanual (List.length_pos.mp hm))]
      dsimp only
      rw [if_neg (by simp)]
      exact ⟨⟨(fun h => nomatch h), fun hex => absurd hex hnotex⟩,
        fun hex => absurd hex hnotex, fun _ => ⟨_, _, rfl⟩⟩
    · rw [if_neg hm, if_neg (by simp)]
      dsimp only
      have hemp : req.fiscalDayCounters = [] := by
        rcases List.eq_nil_or_concat req.fiscalDayCounters with h | ⟨l, x, h⟩
        · exact h
        · exact absurd (by simp [h]) hm
      rw [if_neg (by simp [hauto hemp])]
      exact ⟨⟨(fun h => nomatch h), fun hex => absurd hex hnotex⟩,
        fun hex => absurd hex hnotex, fun _ => ⟨_, _, rfl⟩⟩

/-- The sample state with a Red receipt stored in the open day. -/
def blockedState : ServerState :=
  { baseState with receipts := [{ storedReceipt with validationColor := some .red }] }

/-- The close request used in the C3 witness: Auto mode (no counters,
device signature present). -/
def closeBlockedReq : CloseFiscalDayRequest :=
  { deviceID := 1001
    fiscalDayDeviceSignature := some { hash := [1], signature := [2] }
    fiscalDayCounters := [] }

/-- Witness for the C3 theorem: with a Red receipt in the day, the close
is rejected with the FISC04 blocking error. -/
theorem closeFiscalDay_blocking_guard_witness :
    CloseFiscalDay (fun _ => []) blockedState closeBlockedReq
      = .error (.api 422 "Fiscal day has receipts with validation errors" "FISC04") :=
  (closeFiscalDay_blocking_guard (fun _ => []) blockedState closeBlockedReq
      baseDevice baseDay
      (by with_unfolding_all rfl)
      (by with_unfolding_all decide)
      (by with_unfolding_all rfl)
      (Or.inl (by with_unfolding_all rfl))
      (fun h => absurd rfl h)
      (fun _ h => by rw [show closeBlockedReq.fiscalDayDeviceSignature
        = some { hash := [1], signature := [2] } from rfl] at h; cases h)).1.mpr
    ⟨{ storedReceipt with validationColor := some .red },
      by rw [show blockedState.receipts
        = [{ storedReceipt with validationColor := some .red }] from rfl]
         exact List.mem_singleton.mpr rfl,
      by with_unfolding_all rfl,
      Or.inl rfl⟩

/-! ## Claim C4 — manual counter reconciliation in CloseFiscalDay -/

/-- The key list of a Go map write: unchanged when the key is already
present, appended otherwise. -/
theorem mapPut_keys (k : String) (v : ℚ) (m : List (String × ℚ)) :
    (mapPut k v m).map Prod.fst =
      if m.any (fun kv => kv.1 == k) = true then m.map Prod.fst
      else m.map Prod.fst ++ [k] := by
  unfold mapPut
  by_cases hc : m.any (fun kv => kv.1 == k) = true
  · rw [if_pos hc, if_pos hc, List.map_map]
    refine List.map_congr_left (fun kv _ => ?_)
    by_cases h : (kv.1 == k) = true
    · simp only [Function.comp_apply, if_pos h]
      exact (beq_iff_eq.mp h).symm
    · simp only [Function.comp_apply, if_neg h]
  · rw [if_neg hc, if_neg hc, List.map_append]
    rfl

/-- The key list built by the `compareCounters` fold has no duplicates,
whatever the accumulator's (duplicate-free) key list. -/
theorem foldPut_keys_nodup (cs : List FiscalDayCounter) :
    ∀ m : List (String × ℚ), (m.map Prod.fst).Nodup →
      ((cs.foldl (fun m c => mapPut (counterKey c) c.fiscalCounterValue m) m).map
        Prod.fst).Nodup := by
  induction cs with
  | nil => exact fun m h => h
  | cons c cs ih =>
      intro m h
      refine ih _ ?_
      rw [mapPut_keys]
      by_cases hc : m.any (fun kv => kv.1 == counterKey c) = true
      · rw [if_pos hc]
        exact h
      · rw [if_neg hc, List.nodup_append]
        refine ⟨h, List.nodup_singleton _, ?_⟩
        intro x hx hxk
        rw [List.mem_singleton.mp hxk] at hx
        apply hc
        rw [List.any_eq_true]
        obtain ⟨kv, hkv, hfst⟩ := List.mem_map.mp hx
        exact ⟨kv, hkv, beq_iff_eq.mpr hfst⟩

/-- A key is in the fold's map exactly when it was in the accumulator or
is the key of one of the folded counters. -/
theorem foldPut_keys_mem (cs : List FiscalDayCounter) :
    ∀ (m : List (String × ℚ)) (k : String),
      (k ∈ (cs.foldl (fun m c => mapPut (counterKey c) c.fiscalCounterValue m) m).map
          Prod.fst)
        ↔ (k ∈ m.map Prod.fst ∨ ∃ c ∈ cs, counterKey c = k) := by
  induction cs with
  | nil => intro m k; simp
  | cons c cs ih =>
      intro m k
      rw [List.foldl_cons, ih]
      constructor
      · rintro (hm | hcs)
        · rw [mapPut_keys] at hm
          by_cases hc : m.any (fun kv => kv.1 == counterKey c) = true
          · rw [if_pos hc] at hm
            exact Or.inl hm
          · rw [if_neg hc] at hm
            rcases List.mem_append.mp hm with h | h
            · exact Or.inl h
            · exact Or.inr ⟨c, List.mem_cons_self c cs, (List.mem_singleton.mp h).symm⟩
        · obtain ⟨c2, hc2, hk⟩ := hcs
          exact Or.inr ⟨c2, List.mem_cons_of_mem _ hc2, hk⟩
      · rintro (hm | ⟨c2, hc2, hk⟩)
        · left
          rw [mapPut_keys]
          by_cases hc : m.any (fun kv => kv.1 == counterKey c) = true
          · rw [if_pos hc]
            exact hm
          · rw [if_neg hc]
            exact List.mem_append.mpr (Or.inl hm)
        · rcases List.mem_cons.mp hc2 with hcc | hc2
          · left
            rw [mapPut_keys, ← hk, hcc]
            by_cases hc : m.any (fun kv => kv.1 == counterKey c) = true
            · rw [if_pos hc]
              rw [List.any_eq_true] at hc
              obtain ⟨kv, hkv, hb⟩ := hc
              exact List.mem_map.mpr ⟨kv, hkv, beq_iff_eq.mp hb⟩
            · rw [if_neg hc]
              exact List.mem_append.mpr (Or.inr (List.mem_singleton.mpr rfl))
          · exact Or.inr ⟨c2, hc2, hk⟩

/-- The Go map of `compareCounters` has duplicate-free keys. -/
theorem buildCounterMap_keys_nodup (cs : List FiscalDayCounter) :
    ((buildCounterMap cs).map Prod.fst).Nodup :=
  foldPut_keys_nodup cs [] (by simp)

/-- The Go map's key set is the image of `counterKey` over the counters. -/
theorem buildCounterMap_keys_mem (cs : List FiscalDayCounter) (k : String) :
    k ∈ (buildCounterMap cs).map Prod.fst ↔ ∃ c ∈ cs, counterKey c = k := by
  unfold buildCounterMap
  rw [foldPut_keys_mem]
  simp

/-- Two entries of the Go map with the same key are the same entry. -/
theorem buildCounterMap_eq_of_fst_eq {cs : List FiscalDayCounter}
    {kv kv2 : String × ℚ} (h1 : kv ∈ buildCounterMap cs)
    (h2 : kv2 ∈ buildCounterMap cs) (hfst : kv.1 = kv2.1) : kv = kv2 :=
  List.inj_on_of_nodup_map (buildCounterMap_keys_nodup cs) h1 h2 hfst

/-- `fiscalDayRepository.compareCounters` succeeds exactly when the
submitted and actual counters cover the same `counterKey` keys and, per
key, the (last-written) values differ by at most 0.01. -/
theorem compareCounters_characterization (sub act : List FiscalDayCounter) :
    compareCounters sub act = true ↔
      ((∀ k, (∃ c ∈ sub, counterKey c = k) ↔ ∃ c ∈ act, counterKey c = k)
        ∧ ∀ kv ∈ buildCounterMap sub, ∀ kv2 ∈ buildCounterMap act,
            kv.1 = kv2.1 → |kv.2 - kv2.2| ≤ 1 / 100) := by
  unfold compareCounters
  constructor
  · intro h
    by_cases hlen : (buildCounterMap sub).length ≠ (buildCounterMap act).length
    · rw [if_pos hlen] at h
      simp at h
    · rw [if_neg hlen] at h
      push_neg at hlen
      rw [List.all_eq_true] at h
      have hfind : ∀ kv ∈ buildCounterMap sub, ∃ kv2,
          (buildCounterMap act).find? (fun kv2 => kv2.1 == kv.1) = some kv2
            ∧ |kv.2 - kv2.2| ≤ 1 / 100 := by
        intro kv hkv
        have hh := h kv hkv
        cases hf : (buildCounterMap act).find? (fun kv2 => kv2.1 == kv.1) with
        | none =>
            rw [hf] at hh
            simp at hh
        | some kv2 =>
            rw [hf] at hh
            exact ⟨kv2, rfl, of_decide_eq_true hh⟩
      have hsubkeys : ∀ k ∈ (buildCounterMap sub).map Prod.fst,
          k ∈ (buildCounterMap act).map Prod.fst := by
        intro k hk
        obtain ⟨kv, hkv, hfst⟩ := List.mem_map.mp hk
        obtain ⟨kv2, hf, -⟩ := hfind kv hkv
        have hmem := List.mem_of_find?_eq_some hf
        have hp0 := List.find?_some hf
        simp only [beq_iff_eq] at hp0
        exact List.mem_map.mpr ⟨kv2, hmem, by rw [hp0, hfst]⟩
      have hset : ((buildCounterMap sub).map Prod.fst).toFinset
          = ((buildCounterMap act).map Prod.fst).toFinset := by
        refine Finset.eq_of_subset_of_card_le (fun k hk => ?_) ?_
        · rw [List.mem_toFinset] at hk ⊢
          exact hsubkeys k hk
        · rw [List.toFinset_card_of_nodup (buildCounterMap_keys_nodup act),
            List.toFinset_card_of_nodup (buildCounterMap_keys_nodup sub),
            List.length_map, List.length_map, hlen]
      constructor
      · intro k
        rw [← buildCounterMap_keys_mem, ← buildCounterMap_keys_mem,
          ← List.mem_toFinset, ← List.mem_toFinset, hset]
      · intro kv hkv kv2 hkv2 hfst
        obtain ⟨kv3, hf, htol⟩ := hfind kv hkv
        have hmem3 := List.mem_of_find?_eq_some hf
        have hp0 := List.find?_some hf
        simp only [beq_iff_eq] at hp0
        have : kv3 = kv2 := buildCounterMap_eq_of_fst_eq hmem3 hkv2 (by rw [hp0, hfst])
        rwa [this] at htol
  · rintro ⟨hkeys, htol⟩
    have hset : ∀ k, k ∈ (buildCounterMap sub).map Prod.fst
        ↔ k ∈ (buildCounterMap act).map Prod.fst := by
      intro k
      rw [buildCounterMap_keys_mem, buildCounterMap_keys_mem]
      exact hkeys k
    have hlen : (buildCounterMap sub).length = (buildCounterMap act).length := by
      rw [← List.length_map (buildCounterMap sub) Prod.fst,
        ← List.length_map (buildCounterMap act) Prod.fst,
        ← List.toFinset_card_of_nodup (buildCounterMap_keys_nodup sub),
        ← List.toFinset_card_of_nodup (buildCounterMap_keys_nodup act)]
      congr 1
      refine Finset.ext (fun k => ?_)
      rw [List.mem_toFinset, List.mem_toFinset]
      exact hset k
    rw [if_neg (fun hne => hne hlen), List.all_eq_true]
    intro kv hkv
    have hk : kv.1 ∈ (buildCounterMap act).map Prod.fst :=
      (hset kv.1).mp (List.mem_map.mpr ⟨kv, hkv, rfl⟩)
    cases hf : (buildCounterMap act).find? (fun kv2 => kv2.1 == kv.1) with
    | none =>
        rw [List.find?_eq_none] at hf
        obtain ⟨kv2, hkv2, hfst⟩ := List.mem_map.mp hk
        exact absurd (beq_iff_eq.mpr hfst) (hf kv2 hkv2)
    | some kv2 =>
        have hp0 := List.find?_some hf
        simp only [beq_iff_eq] at hp0
        exact decide_eq_true (htol kv hkv kv2 (List.mem_of_find?_eq_some hf) hp0.symm)

/-- C4: for an otherwise admissible close call carrying a NON-EMPTY
counter set (device found and Online, current day Opened or CloseFailed,
no Red/Grey receipt in the day), the close runs in Manual mode: it
succeeds exactly when `ValidateCounters` accepts the submitted counters,
on success the day is persisted Closed with reconciliation mode Manual,
and on rejection the error is the FISC04 counter mismatch. The final
conjunct characterizes the acceptance test: the submitted and
server-computed counters cover the same `counterKey` keys and each per-key
value pair differs by at most 0.01. -/
theorem closeFiscalDay_manual_reconciliation (f : List Nat → List Nat)
    (s : ServerState) (req : CloseFiscalDayRequest) (device : Device)
    (day : FiscalDay)
    (hdev : getByDeviceID s req.deviceID = some device)
    (hmode : device.operatingMode ≠ .offline)
    (hday : fiscalDayGetCurrent s req.deviceID = some day)
    (hstatus : day.status = .opened ∨ day.status = .closeFailed)
    (hclean : ¬ ∃ r ∈ s.receipts, r.fiscalDayID = day.id
        ∧ (r.validationColor = some .red ∨ r.validationColor = some .grey))
    (hnonempty : req.fiscalDayCounters ≠ []) :
    ((∃ resp s2, CloseFiscalDay f s req = .ok (resp, s2))
        ↔ ValidateCounters s day.id req.fiscalDayCounters = true)
    ∧ (∀ resp s2, CloseFiscalDay f s req = .ok (resp, s2) →
        ∃ day2 ∈ s2.fiscalDays, day2.id = day.id ∧ day2.status = .closed
          ∧ day2.reconciliationMode = some .manual)
    ∧ (ValidateCounters s day.id req.fiscalDayCounters = false →
        CloseFiscalDay f s req
          = .error (.api 422 "Submitted counters do not match actual values" "FISC04"))
    ∧ (∀ sub act : List FiscalDayCounter, compareCounters sub act = true ↔
        ((∀ k, (∃ c ∈ sub, counterKey c = k) ↔ ∃ c ∈ act, counterKey c = k)
          ∧ ∀ kv ∈ buildCounterMap sub, ∀ kv2 ∈ buildCounterMap act,
              kv.1 = kv2.1 → |kv.2 - kv2.2| ≤ 1 / 100)) := by
  obtain ⟨hcm, hcdev, hcmax⟩ := fiscalDayGetCurrent_some hday
  unfold CloseFiscalDay
  rw [hdev]
  dsimp only
  rw [if_neg hmode]
  rw [hday]
  dsimp only
  rw [if_neg (by rcases hstatus with h | h <;> simp [h])]
  rw [if_neg (fun hb => hclean ((hasBlocking_iff s day.id).mp hb))]
  have hm : 0 < req.fiscalDayCounters.length := List.length_pos.mpr hnonempty
  rw [if_pos hm, if_pos rfl]
  by_cases hv : ValidateCounters s day.id req.fiscalDayCounters = true
  · rw [if_pos hv]
    dsimp only
    rw [if_neg (by simp)]
    refine ⟨⟨fun _ => hv, fun _ => ⟨_, _, rfl⟩⟩, ?_, ?_,
      compareCounters_characterization⟩
    · intro resp s2 hok
      cases hok
      exact ⟨_, List.mem_map.mpr ⟨day, hcm, if_pos (beq_self_eq_true _)⟩, rfl, rfl, rfl⟩
    · intro hfalse
      rw [hv] at hfalse
      cases hfalse
  · rw [if_neg hv]
    dsimp only
    refine ⟨⟨?_, fun h => absurd h hv⟩, ?_, fun _ => rfl,
      compareCounters_characterization⟩
    · rintro ⟨resp, s2, h⟩
      cases h
    · intro resp s2 h
      cases h

/-- The close request of the C4 witness: the submitted counters are
exactly the server-computed counters of the stored receipt's day. -/
def c4Req : CloseFiscalDayRequest :=
  { deviceID := 1001
    fiscalDayDeviceSignature := none
    fiscalDayCounters := calculateActualCounters dupState 10 }

/-- Witness for the C4 theorem: submitting the matching counters closes
the day. -/
theorem closeFiscalDay_manual_reconciliation_witness :
    ∃ resp s2, CloseFiscalDay (fun _ => []) dupState c4Req = .ok (resp, s2) :=
  (closeFiscalDay_manual_reconciliation (fun _ => []) dupState c4Req
      baseDevice baseDay
      (by with_unfolding_all rfl)
      (by with_unfolding_all decide)
      (by with_unfolding_all rfl)
      (Or.inl (by with_unfolding_all rfl))
      (by
        rintro ⟨r, hr, -, hcol⟩
        rw [show dupState.receipts = [storedReceipt] from rfl,
          List.mem_singleton] at hr
        rw [hr] at hcol
        rcases hcol with h | h <;> exact absurd h (by with_unfolding_all decide))
      (by with_unfolding_all decide)).1.mpr
    (by with_unfolding_all decide)

/-! ## Claim C7 — idempotence of SubmitReceipt -/

/-- Mapping a key-preserving function over the rows commutes with the
`ORDER BY key DESC LIMIT 1` fold. -/
theorem foldPick_map (g : α → α) (f : α → ℤ) :
    ∀ (l : List α) (a : Option α),
      (∀ x ∈ l, f (g x) = f x) → (∀ m, a = some m → f (g m) = f m) →
      (l.map g).foldl (pickStep f) (a.map g) = (l.foldl (pickStep f) a).map g := by
  intro l
  induction l with
  | nil => intro a _ _; rfl
  | cons x l ih =>
      intro a hl ha
      rw [List.map_cons, List.foldl_cons, List.foldl_cons]
      have hstep : pickStep f (a.map g) (g x) = (pickStep f a x).map g := by
        cases a with
        | none => rfl
        | some m =>
            show (if f (g m) < f (g x) then some (g x) else some (g m))
              = Option.map g (if f m < f x then some x else some m)
            rw [hl x (List.mem_cons_self x l), ha m rfl]
            by_cases hc : f m < f x
            · rw [if_pos hc, if_pos hc]
              rfl
            · rw [if_neg hc, if_neg hc]
              rfl
      rw [hstep]
      refine ih (pickStep f a x) (fun y hy => hl y (List.mem_cons_of_mem _ hy)) ?_
      intro m hm
      cases a with
      | none =>
          have hx : some x = some m := hm
          rw [← Option.some.inj hx]
          exact hl x (List.mem_cons_self x l)
      | some m0 =>
          have hm2 : (if f m0 < f x then some x else some m0) = some m := hm
          by_cases hc : f m0 < f x
          · rw [if_pos hc] at hm2
            rw [← Option.some.inj hm2]
            exact hl x (List.mem_cons_self x l)
          · rw [if_neg hc] at hm2
            rw [← Option.some.inj hm2]
            exact ha m0 rfl

/-- `fiscalDayRepository.GetCurrent` is preserved by a rewrite of the day
rows that keeps each row's device and day number. -/
theorem getCurrentList_map (l : List FiscalDay) (dev : ℤ) (g : FiscalDay → FiscalDay)
    (hgdev : ∀ d ∈ l, (g d).deviceID = d.deviceID)
    (hgno : ∀ d ∈ l, (g d).fiscalDayNo = d.fiscalDayNo) :
    ((l.map g).filter (fun d => d.deviceID == dev)).foldl
        (pickStep fun d => d.fiscalDayNo) none
      = ((l.filter (fun d => d.deviceID == dev)).foldl
          (pickStep fun d => d.fiscalDayNo) none).map g := by
  rw [List.filter_map]
  have hfc : List.filter ((fun d => d.deviceID == dev) ∘ g) l
      = List.filter (fun d => d.deviceID == dev) l :=
    List.filter_congr (fun d hd => by
      show ((g d).deviceID == dev) = (d.deviceID == dev)
      rw [hgdev d hd])
  rw [hfc]
  exact foldPick_map g (fun d => d.fiscalDayNo)
    (List.filter (fun d => d.deviceID == dev) l) none
    (fun x hx => hgno x (List.mem_filter.mp hx).1)
    (fun m hm => nomatch hm)

/-- Evaluating `SubmitReceipt` on the state left by a successful insert:
the duplicate guard hits the freshly stored row and answers from it,
bumping only the operation counter. -/
theorem submitReceipt_after_insert (f : List Nat → List Nat) (s : ServerState)
    (req : SubmitReceiptRequest) (device : Device) (fiscalDay : FiscalDay)
    (stored : Receipt) (nr : ℤ) (oc : Nat) (d0 : ℤ) (sig0 : SignatureDataEx)
    (hdev : getByDeviceID s req.deviceID = some device)
    (hoff : device.operatingMode ≠ .offline)
    (hday : fiscalDayGetCurrent s req.deviceID = some fiscalDay)
    (hst : ¬(fiscalDay.status ≠ .opened ∧ fiscalDay.status ≠ .closeFailed))
    (hdup : getByGlobalNo s req.deviceID req.receipt.receiptGlobalNo = none)
    (hids : ∀ d ∈ s.fiscalDays, ∀ d2 ∈ s.fiscalDays, d.id = d2.id → d = d2)
    (hsdev : stored.deviceID = req.deviceID)
    (hsgn : stored.receiptGlobalNo = req.receipt.receiptGlobalNo)
    (hssd : stored.serverDate = some d0)
    (hssig : stored.receiptServerSignature = some sig0) :
    SubmitReceipt f
      { s with
          receipts := s.receipts ++ [stored]
          fiscalDays := s.fiscalDays.map (fun d =>
            if d.id == fiscalDay.id then
              { fiscalDay with lastReceiptGlobalNo := some req.receipt.receiptGlobalNo }
            else d)
          nextReceiptID := nr
          opCounter := oc }
      req
      = .ok ({ operationID := generateOperationID oc
               receiptID := stored.receiptID
               serverDate := d0
               receiptServerSignature := sig0 },
          { s with
              receipts := s.receipts ++ [stored]
              fiscalDays := s.fiscalDays.map (fun d =>
                if d.id == fiscalDay.id then
                  { fiscalDay with
                      lastReceiptGlobalNo := some req.receipt.receiptGlobalNo }
                else d)
              nextReceiptID := nr
              opCounter := oc + 1 }) := by
  have hfd : fiscalDay ∈ s.fiscalDays := (fiscalDayGetCurrent_some hday).1
  unfold SubmitReceipt getByDeviceID fiscalDayGetCurrent getByGlobalNo
  unfold getByDeviceID at hdev
  unfold fiscalDayGetCurrent at hday
  unfold getByGlobalNo at hdup
  dsimp only
  rw [hdev]
  dsimp only
  rw [if_neg hoff]
  rw [getCurrentList_map s.fiscalDays req.deviceID
    (fun d =>
      if d.id == fiscalDay.id then
        { fiscalDay with lastReceiptGlobalNo := some req.receipt.receiptGlobalNo }
      else d)
    (fun d hd => by
      dsimp only
      by_cases hc : (d.id == fiscalDay.id) = true
      · rw [if_pos hc, hids d hd fiscalDay hfd (beq_iff_eq.mp hc)]
      · rw [if_neg hc])
    (fun d hd => by
      dsimp only
      by_cases hc : (d.id == fiscalDay.id) = true
      · rw [if_pos hc, hids d hd fiscalDay hfd (beq_iff_eq.mp hc)]
      · rw [if_neg hc])]
  rw [hday, Option.map_some']
  dsimp only
  rw [if_pos (beq_self_eq_true fiscalDay.id)]
  dsimp only
  rw [if_neg hst]
  rw [List.find?_append, hdup]
  have hpred : (stored.deviceID == req.deviceID
      && stored.receiptGlobalNo == req.receipt.receiptGlobalNo) = true := by
    rw [hsdev, hsgn]
    simp
  rw [@List.find?_cons_of_pos Receipt
    (fun r => r.deviceID == req.deviceID && r.receiptGlobalNo == req.receipt.receiptGlobalNo)
    stored [] hpred]
  dsimp only [Option.or]
  rw [hssd, hssig]

/-- C7 (amended): a second `SubmitReceipt` with the identical request
succeeds and returns the first call's receiptID, serverDate and server
signature under a FRESH operationID (drawn from the bumped operation
counter), changing nothing in the state but that counter — in particular
the stored receipts are untouched, so exactly one row exists for the
(deviceID, receiptGlobalNo). Hypotheses: the request is well-formed (its
receipt carries the request's deviceID, as the handler binds both from
one payload) and day ids are unique (the schema's primary key). -/
theorem submitReceipt_second_call (f : List Nat → List Nat) (s : ServerState)
    (req : SubmitReceiptRequest) (resp1 : SubmitReceiptResponse) (s1 : ServerState)
    (hrdev : req.receipt.deviceID = req.deviceID)
    (hids : ∀ d ∈ s.fiscalDays, ∀ d2 ∈ s.fiscalDays, d.id = d2.id → d = d2)
    (h1 : SubmitReceipt f s req = .ok (resp1, s1)) :
    SubmitReceipt f s1 req
      = .ok ({ operationID := generateOperationID s1.opCounter
               receiptID := resp1.receiptID
               serverDate := resp1.serverDate
               receiptServerSignature := resp1.receiptServerSignature },
          { s1 with opCounter := s1.opCounter + 1 })
      ∧ resp1.operationID = generateOperationID s.opCounter
      ∧ s1.opCounter = s.opCounter + 1 := by
  unfold SubmitReceipt getByDeviceID fiscalDayGetCurrent getByGlobalNo getTaxpayer at h1
  cases hdev : s.devices.find? (fun d => d.deviceID == req.deviceID) with
  | none =>
      rw [hdev] at h1
      simp at h1
  | some device =>
  rw [hdev] at h1
  dsimp only at h1
  by_cases hoff : device.operatingMode = .offline
  · rw [if_pos hoff] at h1
    simp at h1
  · rw [if_neg hoff] at h1
    cases hday : (s.fiscalDays.filter (fun d => d.deviceID == req.deviceID)).foldl
        (pickStep fun d => d.fiscalDayNo) none with
    | none =>
        rw [hday] at h1
        simp at h1
    | some fiscalDay =>
    rw [hday] at h1
    dsimp only at h1
    by_cases hst : fiscalDay.status ≠ .opened ∧ fiscalDay.status ≠ .closeFailed
    · rw [if_pos hst] at h1
      simp at h1
    · rw [if_neg hst] at h1
      cases hdup : s.receipts.find? (fun r => r.deviceID == req.deviceID
          && r.receiptGlobalNo == req.receipt.receiptGlobalNo) with
      | some existing =>
          rw [hdup] at h1
          dsimp only at h1
          cases hsd : existing.serverDate with
          | none =>
              cases hsg : existing.receiptServerSignature with
              | none =>
                  rw [hsd, hsg] at h1
                  simp at h1
              | some sig0 =>
                  rw [hsd, hsg] at h1
                  simp at h1
          | some d0 =>
          cases hsg : existing.receiptServerSignature with
          | none =>
              rw [hsd, hsg] at h1
              simp at h1
          | some sig0 =>
          rw [hsd, hsg] at h1
          dsimp only at h1
          cases h1
          refine ⟨?_, rfl, rfl⟩
          unfold SubmitReceipt getByDeviceID fiscalDayGetCurrent getByGlobalNo getTaxpayer
          dsimp only
          rw [hdev]
          dsimp only
          rw [if_neg hoff]
          rw [hday]
          dsimp only
          rw [if_neg hst]
          rw [hdup]
          dsimp only
          rw [hsd, hsg]
      | none =>
          rw [hdup] at h1
          dsimp only at h1
          cases htp : s.taxpayers.find? (fun t => t.id == device.taxpayerID) with
          | none =>
              rw [htp] at h1
              simp at h1
          | some taxpayer =>
          rw [htp] at h1
          dsimp only at h1
          cases h1
          refine ⟨?_, rfl, rfl⟩
          exact submitReceipt_after_insert f s req device fiscalDay _ _ _ _ _
            hdev hoff hday hst hdup hids hrdev rfl rfl rfl

/-- The C7 request: the sample receipt submitted to the sample state. -/
def c7Req : SubmitReceiptRequest := { deviceID := 1001, receipt := baseReceipt }

/-- The receipt hash the first call computes and stores (SHA-256 of the
sample receipt's canonical encoding with no previous hash appended). -/
def c7Hash : List Nat :=
  [214, 132, 14, 177, 66, 103, 45, 42, 194, 169, 197, 17, 145, 233, 59, 132,
   150, 238, 250, 32, 198, 63, 103, 6, 111, 3, 147, 17, 113, 195, 49, 152]

/-- The server signature stored with the sample receipt (the signing
function of the run is `fun _ => []`). -/
def c7Sig : SignatureDataEx :=
  { hash := c7Hash, signature := [], certificateThumbprint := List.replicate 20 0 }

/-- The receipt row stored by the first call. -/
def c7Stored : Receipt :=
  { baseReceipt with
      fiscalDayID := 10
      id := 100
      receiptID := 100
      receiptHash := c7Hash
      receiptServerSignature := some c7Sig
      serverDate := some 1705314600 }

/-- The first call's response. -/
def resp1w : SubmitReceiptResponse :=
  { operationID := generateOperationID 0
    receiptID := 100
    serverDate := 1705314600
    receiptServerSignature := c7Sig }

/-- The state after the first call. -/
def s1w : ServerState :=
  { baseState with
      receipts := [c7Stored]
      fiscalDays := [{ baseDay with lastReceiptGlobalNo := some 1 }]
      nextReceiptID := 101
      opCounter := 1 }

/-- The second call's response: the stored data under the next
operationID. -/
def resp2w : SubmitReceiptResponse := { resp1w with operationID := generateOperationID 1 }

/-- The state after the second call: only the operation counter moved. -/
def s2w : ServerState := { s1w with opCounter := 2 }

/-- C7 counterexample. The claim requires two byte-identical submissions
to produce byte-identical responses. On the code, both calls succeed and
agree on receiptID, serverDate and server signature, and the stored
receipts are identical after the two calls — but `generateOperationID`
(`uuid.New()`) is drawn afresh per call, so the two responses differ in
their operationID field and are not byte-identical. -/
theorem submit_twice_claim_counterexample :
    SubmitReceipt (fun _ => []) baseState c7Req = .ok (resp1w, s1w)
      ∧ SubmitReceipt (fun _ => []) s1w c7Req = .ok (resp2w, s2w)
      ∧ resp2w ≠ resp1w
      ∧ resp2w.operationID ≠ resp1w.operationID
      ∧ resp2w.receiptID = resp1w.receiptID
      ∧ resp2w.serverDate = resp1w.serverDate
      ∧ resp2w.receiptServerSignature = resp1w.receiptServerSignature
      ∧ s2w.receipts = s1w.receipts :=
  ⟨by set_option maxRecDepth 10000 in with_unfolding_all rfl,
    by set_option maxRecDepth 10000 in with_unfolding_all rfl,
    by set_option maxRecDepth 10000 in with_unfolding_all decide,
    by set_option maxRecDepth 10000 in with_unfolding_all decide,
    by set_option maxRecDepth 10000 in with_unfolding_all decide,
    by set_option maxRecDepth 10000 in with_unfolding_all decide,
    by set_option maxRecDepth 10000 in with_unfolding_all decide,
    rfl⟩

/-- Witness for the C7 theorem at the sample state. -/
theorem submitReceipt_second_call_witness :
    (SubmitReceipt (fun _ => []) s1w c7Req
        = .ok ({ operationID := generateOperationID s1w.opCounter
                 receiptID := resp1w.receiptID
                 serverDate := resp1w.serverDate
                 receiptServerSignature := resp1w.receiptServerSignature },
            { s1w with opCounter := s1w.opCounter + 1 }))
      ∧ resp1w.operationID = generateOperationID baseState.opCounter
      ∧ s1w.opCounter = baseState.opCounter + 1 :=
  submitReceipt_second_call (fun _ => []) baseState c7Req resp1w s1w
    (by with_unfolding_all rfl)
    (by
      intro d hd d2 hd2 _
      rw [show baseState.fiscalDays = [baseDay] from rfl, List.mem_singleton] at hd hd2
      rw [hd, hd2])
    (by set_option maxRecDepth 10000 in with_unfolding_all rfl)

/-! ## Claim C1 — the stored receipt hash and the chain lookup -/

/-- The C1 request: global number 2 with receiptCounter still 1. -/
def c1Req : SubmitReceiptRequest :=
  { deviceID := 1001, receipt := { baseReceipt with receiptGlobalNo := 2 } }

/-- The hash the code stores for the C1 submission: SHA-256 of the
receipt's canonical encoding with NOTHING appended. -/
def c1Hash : List Nat :=
  [227, 6, 21, 170, 41, 43, 169, 99, 118, 43, 126, 117, 204, 50, 242, 95,
   198, 40, 9, 90, 74, 152, 21, 58, 7, 225, 48, 84, 119, 203, 168, 4]

/-- The server signature stored with the C1 submission. -/
def c1Sig : SignatureDataEx :=
  { hash := c1Hash, signature := [], certificateThumbprint := List.replicate 20 0 }

/-- The receipt row stored by the C1 submission. -/
def c1Stored : Receipt :=
  { baseReceipt with
      receiptGlobalNo := 2
      fiscalDayID := 10
      id := 101
      receiptID := 101
      receiptHash := c1Hash
      receiptServerSignature := some c1Sig
      serverDate := some 1705314600 }

/-- The response of the C1 submission. -/
def c1Resp : SubmitReceiptResponse :=
  { operationID := generateOperationID 1
    receiptID := 101
    serverDate := 1705314600
    receiptServerSignature := c1Sig }

/-- The state after the C1 submission. -/
def c1State : ServerState :=
  { baseState with
      receipts := [c7Stored, c1Stored]
      fiscalDays := [{ baseDay with lastReceiptGlobalNo := some 2 }]
      nextReceiptID := 102
      opCounter := 2 }

/-- C1 counterexample. The claim demands the stored receiptHash chain to
the previous receipt of the day whenever one is found, with nothing
appended only when "no previous receipt found". On the code the chain
lookup runs only when receiptCounter > 1: submitting global number 2 with
receiptCounter = 1 into a day that already holds receipt 1 stores a hash
computed with the empty previous-hash, even though `GetPreviousReceipt`
does find receipt 1 — the stored hash differs from the claim's chained
value. -/
theorem receiptHash_chain_claim_counterexample :
    SubmitReceipt (fun _ => []) s1w c1Req = .ok (c1Resp, c1State)
      ∧ getPreviousReceipt s1w 1001 10 2 = some c7Stored
      ∧ c1Stored.receiptHash
          = GenerateReceiptHash { c1Req.receipt with fiscalDayID := 10 } []
      ∧ c1Stored.receiptHash
          ≠ GenerateReceiptHash { c1Req.receipt with fiscalDayID := 10 }
              c7Stored.receiptHash :=
  ⟨by set_option maxRecDepth 10000 in with_unfolding_all rfl,
    by with_unfolding_all rfl,
    by set_option maxRecDepth 10000 in with_unfolding_all rfl,
    by set_option maxRecDepth 10000 in with_unfolding_all decide⟩

/-- C1 (amended): every accepted fresh submission stores exactly one new
row whose receiptHash is SHA-256 over the canonical encoding of the bound
receipt together with the previous-receipt hash CHOSEN BY THE CODE: the
day's stored receipt with the greatest global number below the submitted
one if receiptCounter > 1 and such a receipt exists, and the empty byte
string otherwise — in particular the chain lookup is skipped entirely
when receiptCounter ≤ 1, regardless of what the day already holds. -/
theorem submitReceipt_stored_hash (f : List Nat → List Nat) (s : ServerState)
    (req : SubmitReceiptRequest) (fiscalDay : FiscalDay)
    (resp : SubmitReceiptResponse) (s2 : ServerState)
    (hday : fiscalDayGetCurrent s req.deviceID = some fiscalDay)
    (hnew : getByGlobalNo s req.deviceID req.receipt.receiptGlobalNo = none)
    (hok : SubmitReceipt f s req = .ok (resp, s2)) :
    ∃ stored, s2.receipts = s.receipts ++ [stored]
      ∧ stored.receiptGlobalNo = req.receipt.receiptGlobalNo
      ∧ stored.receiptHash
          = GenerateReceiptHash { req.receipt with fiscalDayID := fiscalDay.id }
            (match (if 1 < req.receipt.receiptCounter then
                getPreviousReceipt s req.deviceID fiscalDay.id
                  req.receipt.receiptGlobalNo
              else none) with
             | some p => p.receiptHash
             | none => []) := by
  unfold SubmitReceipt getByDeviceID fiscalDayGetCurrent getByGlobalNo getTaxpayer at hok
  unfold fiscalDayGetCurrent at hday
  unfold getByGlobalNo at hnew
  cases hdev : s.devices.find? (fun d => d.deviceID == req.deviceID) with
  | none =>
      rw [hdev] at hok
      simp at hok
  | some device =>
  rw [hdev] at hok
  dsimp only at hok
  by_cases hoff : device.operatingMode = .offline
  · rw [if_pos hoff] at hok
    simp at hok
  · rw [if_neg hoff] at hok
    rw [hday] at hok
    dsimp only at hok
    by_cases hst : fiscalDay.status ≠ .opened ∧ fiscalDay.status ≠ .closeFailed
    · rw [if_pos hst] at hok
      simp at hok
    · rw [if_neg hst] at hok
      rw [hnew] at hok
      dsimp only at hok
      cases htp : s.taxpayers.find? (fun t => t.id == device.taxpayerID) with
      | none =>
          rw [htp] at hok
          simp at hok
      | some taxpayer =>
      rw [htp] at hok
      dsimp only at hok
      cases hok
      exact ⟨_, rfl, rfl, rfl⟩

/-- Witness for the C1 theorem at the sample state's first submission. -/
theorem submitReceipt_stored_hash_witness :
    ∃ stored, s1w.receipts = baseState.receipts ++ [stored]
      ∧ stored.receiptGlobalNo = c7Req.receipt.receiptGlobalNo
      ∧ stored.receiptHash
          = GenerateReceiptHash { c7Req.receipt with fiscalDayID := baseDay.id }
            (match (if 1 < c7Req.receipt.receiptCounter then
                getPreviousReceipt baseState c7Req.deviceID baseDay.id
                  c7Req.receipt.receiptGlobalNo
              else none) with
             | some p => p.receiptHash
             | none => []) :=
  submitReceipt_stored_hash (fun _ => []) baseState c7Req baseDay resp1w s1w
    (by with_unfolding_all rfl)
    (by with_unfolding_all rfl)
    (by set_option maxRecDepth 10000 in with_unfolding_all rfl)

end Fdms
